import Mathlib

/-!
Verification development for the SukoonMini backend (energy sync and
reporting service).  The Python sources are shallowly embedded:

* floats are modelled as exact rationals (`ℚ`);
* SQLite tables are modelled as Lean lists / finite sets of typed rows,
  with insert-or-replace, foreign-key checks and rollback made explicit;
* remote (Firestore) fetches are modelled as `Except`-valued snapshot
  fields, so a raised exception is an `.error` value;
* Python string helpers (`str.lower`, `str.replace`) are re-implemented
  as structurally recursive Lean functions so that they compute.

Each definition is annotated with the source location it embeds.
-/

/-- Python `str.lower()` (ASCII folding, which covers every string the
program compares). -/
def strLower (s : String) : String := ⟨s.data.map Char.toLower⟩

/-- Python `str.replace(" ", "")` as used in `api_app.py` line 1008. -/
def stripSpaces (s : String) : String := ⟨s.data.filter (fun c => c ≠ ' ')⟩

/-- Python 3 `round` to an integer: round half to even (banker's rounding),
restricted to rational inputs. -/
def pyRoundHalfEven (q : ℚ) : ℤ :=
  if q - ⌊q⌋ < 1/2 then ⌊q⌋
  else if 1/2 < q - ⌊q⌋ then ⌊q⌋ + 1
  else if ⌊q⌋ % 2 = 0 then ⌊q⌋ else ⌊q⌋ + 1

/-- Python `round(x, 2)`: two-decimal rounding, half to even. -/
def pyRound2 (q : ℚ) : ℚ := (pyRoundHalfEven (q * 100) : ℚ) / 100

/-- A generic insert-or-overwrite into a Python-dict-like association
list (also the effect of `INSERT OR REPLACE` on a table keyed by its
first column): an existing key keeps its position and gets the new
value, a new key is appended. -/
def upsertBy {β : Type} (s : List (String × β)) (k : String) (v : β) :
    List (String × β) :=
  if s.any (fun p => decide (p.1 = k)) then
    s.map (fun p => if p.1 = k then (k, v) else p)
  else s ++ [(k, v)]

/-!
## Rating table

`DeviceDataManager.ENERGY_RATES` (device_data_manager.py lines 11-24),
embedded as the dictionary-lookup function `energyRate` with an explicit
default (the Python callers use `.get(device_type, default)`).
-/

/-- `DeviceDataManager.ENERGY_RATES.get(deviceType, dflt)`. -/
def energyRate (deviceType : String) (dflt : ℚ) : ℚ :=
  if deviceType = "ac" then 1.5
  else if deviceType = "airconditioner" then 1.5
  else if deviceType = "dishwasher" then 1.0
  else if deviceType = "tv" then 0.1
  else if deviceType = "light" then 0.06
  else if deviceType = "thermostat" then 0.05
  else if deviceType = "fan" then 0.03
  else if deviceType = "door" then 0.01
  else if deviceType = "smartdoor" then 0.01
  else if deviceType = "heatconvector" then 1.2
  else if deviceType = "washingmachine" then 0.5
  else if deviceType = "speaker" then 0.1
  else dflt

/-!
## Local store (database_manager.py)

Schema from `DatabaseManager._create_database` (lines 37-186).  Row order
inside a table is never observable through the embedded queries, so
`room_devices` — whose primary key `(room_id, device_id)` makes it a set —
is modelled as a `Finset`; the other tables are lists of rows.  The
`energy_daily` table has only the surrogate `id INTEGER PRIMARY KEY
AUTOINCREMENT` key, so an `INSERT OR REPLACE` into it never hits a
uniqueness conflict and behaves as a plain append.
-/

/-- A row of the `hubs` table (`hub_id` primary key, `hub_code` unique). -/
@[ext] structure HubRow where
  hub_id : String
  hub_code : String
  user_id : String
  home_type : String
deriving DecidableEq, Repr

/-- A row of the `devices` table (`device_id` primary key). -/
@[ext] structure DeviceRow where
  device_id : String
  hub_code : String
  device_type : String
  status : Bool
deriving DecidableEq, Repr

/-- A row of the `rooms` table (`room_id` primary key). -/
@[ext] structure RoomRow where
  room_id : String
  room_name : String
  hub_code : String
  device_count : Nat
deriving DecidableEq, Repr

/-- A row of the `energy_daily` table (surrogate autoincrement key, not
modelled; `device_id` is NULL for the hub-total row). -/
@[ext] structure EnergyDailyRow where
  date : String
  user_id : String
  hub_code : String
  device_id : Option String
  device_type : String
  energy_kwh : ℚ
  usage_hours : ℚ
deriving DecidableEq, Repr

/-- A row of the `energy_weekly` table. -/
@[ext] structure EnergyWeeklyRow where
  year : Nat
  week : Nat
  user_id : String
  hub_code : String
  device_id : Option String
  device_type : String
  energy_kwh : ℚ
  usage_hours : ℚ
deriving DecidableEq, Repr

/-- A row of the `energy_monthly` table. -/
@[ext] structure EnergyMonthlyRow where
  year : Nat
  month : Nat
  user_id : String
  hub_code : String
  device_id : Option String
  device_type : String
  energy_kwh : ℚ
  usage_hours : ℚ
deriving DecidableEq, Repr

/-- A row of the `energy_yearly` table. -/
@[ext] structure EnergyYearlyRow where
  year : Nat
  user_id : String
  hub_code : String
  device_id : Option String
  device_type : String
  energy_kwh : ℚ
  usage_hours : ℚ
deriving DecidableEq, Repr

/-- A row of the `hub_summary` table without its key (the table is an
association list keyed by `hub_code`).  All four energy fields and
`device_count` carry `DEFAULT 0` in the schema (lines 165-177). -/
@[ext] structure HubSummaryRow where
  user_id : String
  daily_energy : ℚ
  weekly_energy : ℚ
  monthly_energy : ℚ
  yearly_energy : ℚ
  device_count : Nat
deriving DecidableEq, Repr

/-- The whole SQLite database state. -/
@[ext] structure DBState where
  users : List String
  hubs : List HubRow
  devices : List DeviceRow
  rooms : List RoomRow
  room_devices : Finset (String × String)
  energy_daily : List EnergyDailyRow
  energy_weekly : List EnergyWeeklyRow
  energy_monthly : List EnergyMonthlyRow
  energy_yearly : List EnergyYearlyRow
  hub_summary : List (String × HubSummaryRow)
deriving DecidableEq

/-- The freshly created database (all tables empty). -/
def emptyDB : DBState := ⟨[], [], [], [], ∅, [], [], [], [], []⟩

/-- The `hub_code` column of the `hubs` table (parent of every
`FOREIGN KEY (hub_code)` in the schema). -/
def hubCodes (db : DBState) : List String := db.hubs.map (fun h => h.hub_code)

/-- The `device_id` column of the `devices` table. -/
def deviceIds (db : DBState) : List String := db.devices.map (fun d => d.device_id)

/-- `DatabaseManager.add_user` (lines 722-761): insert the user if absent,
otherwise only touch its timestamp (invisible here).  It cannot fail. -/
def addUser (db : DBState) (user_id : String) : Bool × DBState :=
  if user_id ∈ db.users then (true, db)
  else (true, { db with users := db.users ++ [user_id] })

/-- Whether writing `(hub_id, hub_code)` would violate the `hub_code`
UNIQUE constraint of the `hubs` table. -/
def hubUniqueViolation (db : DBState) (hub_id hub_code : String) : Bool :=
  db.hubs.any (fun h => decide (h.hub_id ≠ hub_id) && decide (h.hub_code = hub_code))

/-- One attempt of `DatabaseManager.add_hub` (the UPDATE-or-INSERT body,
lines 202-227 and its retry copy 238-259), with `fk` recording whether
`PRAGMA foreign_keys` is ON.  `none` models a raised constraint
violation (rolled back).  Only the `user_id` foreign key depends on
`fk`; the `hub_code` UNIQUE constraint fires regardless. -/
def addHubAttempt (db : DBState) (hub_id hub_code uid home_type : String)
    (fk : Bool) : Option DBState :=
  if db.hubs.any (fun h => decide (h.hub_id = hub_id)) then
    if hubUniqueViolation db hub_id hub_code then none
    else some { db with hubs := db.hubs.map (fun h =>
      if h.hub_id = hub_id then ⟨hub_id, hub_code, uid, home_type⟩ else h) }
  else
    if db.hubs.any (fun h => decide (h.hub_code = hub_code)) then none
    else if fk && decide (uid ∉ db.users) then none
    else some { db with hubs := db.hubs ++ [⟨hub_id, hub_code, uid, home_type⟩] }

/-- `DatabaseManager.add_hub` (lines 188-267): default the user id, ensure
the user exists (`add_user` commits on its own connection, so it survives
a later rollback), try the write with foreign keys ON, and on failure
retry once with `PRAGMA foreign_keys = OFF` (lines 233-259). -/
def addHub (db : DBState) (hub_id hub_code user_id home_type : String) :
    Bool × DBState :=
  let uid := if user_id = "" then "user_" ++ hub_code else user_id
  let db1 := (addUser db uid).2
  match addHubAttempt db1 hub_id hub_code uid home_type true with
  | some db2 => (true, db2)
  | none =>
    match addHubAttempt db1 hub_id hub_code uid home_type false with
    | some db2 => (true, db2)
    | none => (false, db1)

/-- `DatabaseManager.add_device` (lines 846-897): UPDATE when the
`device_id` exists, INSERT otherwise.  Both writes are subject to the
`hub_code` foreign key (connections always run `PRAGMA foreign_keys = ON`,
line 31); a violation is caught, rolled back and reported as `False` —
this function has **no** foreign-keys-OFF retry branch. -/
def addDevice (db : DBState) (device_id hub_code device_type : String)
    (status : Bool) : Bool × DBState :=
  if db.devices.any (fun d => decide (d.device_id = device_id)) then
    if hub_code ∈ hubCodes db then
      (true, { db with devices := db.devices.map (fun d =>
        if d.device_id = device_id then ⟨device_id, hub_code, device_type, status⟩ else d) })
    else (false, db)
  else
    if hub_code ∈ hubCodes db then
      (true, { db with devices := db.devices ++ [⟨device_id, hub_code, device_type, status⟩] })
    else (false, db)

/-- `INSERT OR REPLACE INTO rooms` keyed by the `room_id` primary key. -/
def upsertRoomRow (rooms : List RoomRow) (r : RoomRow) : List RoomRow :=
  if rooms.any (fun x => decide (x.room_id = r.room_id)) then
    rooms.map (fun x => if x.room_id = r.room_id then r else x)
  else rooms ++ [r]

/-- `DatabaseManager.add_room` (lines 270-336): reject when the hub is
missing (explicit check, line 293); otherwise replace the room row, and
when a device list is given delete the room's `room_devices` pairs and
re-insert one pair per listed device (`INSERT OR IGNORE`, which still
raises on a `device_id` foreign-key violation).  Everything is one
transaction: any failure rolls the whole call back. -/
def addRoom (db : DBState) (room_id room_name hub_code : String)
    (devices : List String) : Bool × DBState :=
  if hub_code ∉ hubCodes db then (false, db)
  else
    let rooms1 := upsertRoomRow db.rooms ⟨room_id, room_name, hub_code, devices.length⟩
    if devices = [] then (true, { db with rooms := rooms1 })
    else if devices.all (fun d => decide (d ∈ deviceIds db)) then
      let pairs := (db.room_devices.filter (fun p => decide (p.1 ≠ room_id))) ∪
        (devices.map (fun d => (room_id, d))).toFinset
      (true, { db with rooms := rooms1, room_devices := pairs })
    else (false, db)

/-- `DatabaseManager.store_daily_energy` (lines 899-946): an
`INSERT OR REPLACE` into `energy_daily`, whose only uniqueness is the
surrogate autoincrement id — so it is a plain append.  The `hub_code`
foreign key applies; a violation is caught and reported as `False`
with **no** retry branch. -/
def storeDailyEnergy (db : DBState) (date_str user_id hub_code device_id device_type : String)
    (energy_kwh usage_hours : ℚ) : Bool × DBState :=
  if hub_code ∈ hubCodes db then
    (true, { db with energy_daily := db.energy_daily ++
      [⟨date_str, user_id, hub_code, some device_id, device_type, energy_kwh, usage_hours⟩] })
  else (false, db)

/-- The `DEFAULT 0` values of the `hub_summary` schema (lines 165-177). -/
def hubSummaryDefaults : HubSummaryRow := ⟨"", 0, 0, 0, 0, 0⟩

/-- One attempt of `DatabaseManager.store_hub_daily_total` (the two
INSERT OR REPLACE statements, lines 781-799 and their retry copy
813-829): an appended `hub_total` row (`device_id` NULL) plus a full
replacement of the `hub_summary` row supplying only `user_id` and
`daily_energy`, every other column falling back to its schema default.
With foreign keys ON both inserts require the hub to exist. -/
def storeHubDailyTotalAttempt (db : DBState) (date_str user_id hub_code : String)
    (energy_kwh usage_hours : ℚ) (fk : Bool) : Option DBState :=
  if fk && decide (hub_code ∉ hubCodes db) then none
  else some { db with
    energy_daily := db.energy_daily ++
      [⟨date_str, user_id, hub_code, none, "hub_total", energy_kwh, usage_hours⟩],
    hub_summary := upsertBy db.hub_summary hub_code
      { hubSummaryDefaults with user_id := user_id, daily_energy := energy_kwh } }

/-- `DatabaseManager.store_hub_daily_total` (lines 764-842): ensure the
user, attempt the two writes, and on failure retry once with
`PRAGMA foreign_keys = OFF` (lines 808-834) — with which the retry always
succeeds, since no other constraint can fire. -/
def storeHubDailyTotal (db : DBState) (date_str user_id hub_code : String)
    (energy_kwh : ℚ) (usage_hours : ℚ := 24) : Bool × DBState :=
  let db1 := (addUser db user_id).2
  match storeHubDailyTotalAttempt db1 date_str user_id hub_code energy_kwh usage_hours true with
  | some db2 => (true, db2)
  | none =>
    match storeHubDailyTotalAttempt db1 date_str user_id hub_code energy_kwh usage_hours false with
    | some db2 => (true, db2)
    | none => (false, db1)

/-!
## Remote snapshot and sync engine (energy_calculator.py)

The Firestore side is modelled as a frozen snapshot: the three fetches the
sync pass performs are `Except`-valued (a raised exception during a fetch
is `.error`).  Documents are untyped dictionaries in Python; the fields
the sync engine reads are modelled as `Option`s (`none` = key absent).
-/

/-- A `userHubs` document as consumed by the sync pass. -/
structure HubDoc where
  hubId : Option String
  hubCode : Option String
  userId : Option String
  homeType : Option String
deriving DecidableEq, Repr

/-- A `devices` document as consumed by the sync pass. -/
structure DeviceDoc where
  deviceId : Option String
  deviceType : Option String
  isOn : Bool
deriving DecidableEq, Repr

/-- One entry of a room document's heterogeneous `devices` list: either a
bare device-id string or a dictionary carrying an optional `deviceId`. -/
inductive RoomDeviceItem where
  | strId (s : String)
  | objRef (deviceId : Option String)
deriving DecidableEq, Repr

/-- A `rooms` document as consumed by the sync pass. -/
structure RoomDoc where
  roomId : Option String
  roomName : Option String
  devices : List RoomDeviceItem
deriving DecidableEq, Repr

/-- A frozen remote snapshot: the result of `get_all_hubs` and, per hub
code, of `get_devices_by_hub_code` / `get_rooms_by_hub_code`
(device_data_manager.py lines 31-46, 63-82, 212-242).  An `.error`
models the fetch raising. -/
structure RemoteSnapshot where
  hubsResult : Except String (List HubDoc)
  devicesByHub : String → Except String (List DeviceDoc)
  roomsByHub : String → Except String (List RoomDoc)

/-- `hub.get('hubId', 'unknown')` (energy_calculator.py line 50). -/
def effHubId (h : HubDoc) : String := h.hubId.getD "unknown"

/-- `hub.get('hubCode', hub_id)` (line 51). -/
def effHubCode (h : HubDoc) : String := h.hubCode.getD (effHubId h)

/-- `hub.get('userId', '')` (line 52). -/
def effUserId (h : HubDoc) : String := h.userId.getD ""

/-- `hub.get('homeType', '')` (line 53). -/
def effHomeType (h : HubDoc) : String := h.homeType.getD ""

/-- `hub.get('hubCode', 'unknown')` as read again inside
`_calculate_and_store_daily_energy` (line 122) — note the different
fallback from line 51. -/
def calcHubCode (h : HubDoc) : String := h.hubCode.getD "unknown"

/-- `user_id = hub.get('userId', f'user_{hub_code}'); if not user_id:
user_id = f'user_{hub_code}'` (lines 125-127). -/
def calcUserId (h : HubDoc) : String :=
  let u := h.userId.getD ("user_" ++ calcHubCode h)
  if u = "" then "user_" ++ calcHubCode h else u

/-- `device.get('deviceId', 'unknown')` (lines 71, 136). -/
def effDeviceId (d : DeviceDoc) : String := d.deviceId.getD "unknown"

/-- `device.get('deviceType', 'unknown').lower()` (lines 72, 137). -/
def effDeviceType (d : DeviceDoc) : String := strLower (d.deviceType.getD "unknown")

/-- Normalisation of a room's heterogeneous `devices` list into a flat
list of device ids (energy_calculator.py lines 90-99): strings are taken
as ids, dictionaries contribute their `deviceId` when it is truthy, and
anything else is skipped. -/
def extractDeviceIds (items : List RoomDeviceItem) : List String :=
  items.foldl (fun acc it =>
    match it with
    | .strId s => acc ++ [s]
    | .objRef d =>
      match d with
      | some id => if id = "" then acc else acc ++ [id]
      | none => acc) []

/-- The per-device branch of `_calculate_and_store_daily_energy`
(energy_calculator.py lines 138-158): an off device yields
`(energy, hours) = (0, 0)`; an on device yields the rating-table rate
(default `0.0` for unknown types) times the policy usage hours —
24 for thermostat/door/smartdoor, otherwise 10. -/
def deviceEnergyHours (d : DeviceDoc) : ℚ × ℚ :=
  if !d.isOn then (0, 0)
  else
    let device_type := effDeviceType d
    let rate := energyRate device_type 0.0
    let hours : ℚ := if device_type ∈ ["thermostat", "door", "smartdoor"] then 24.0 else 10.0
    (rate * hours, hours)

/-- The hub total accumulated by `_calculate_and_store_daily_energy`:
`store_daily_energy` reports failure by return value rather than by
raising (database_manager.py lines 940-943), so `total_energy += energy`
runs for every device and the total is the plain sum. -/
def hubDailyTotal (devices : List DeviceDoc) : ℚ :=
  (devices.map (fun d => (deviceEnergyHours d).1)).sum

/-- `EnergyCalculator._calculate_and_store_daily_energy`
(energy_calculator.py lines 114-174): store one `energy_daily` row per
device and then the hub-total row (plus the `hub_summary` refresh) via
`store_hub_daily_total`.  The return values of the two store calls are
logged and otherwise ignored. -/
def calcAndStoreDailyEnergy (hub : HubDoc) (devices : List DeviceDoc)
    (db : DBState) (today : String) : DBState :=
  let hub_code := calcHubCode hub
  let user_id := calcUserId hub
  let db1 := devices.foldl (fun acc d =>
    (storeDailyEnergy acc today user_id hub_code (effDeviceId d) (effDeviceType d)
      (deviceEnergyHours d).1 (deviceEnergyHours d).2).2) db
  (storeHubDailyTotal db1 today user_id hub_code (hubDailyTotal devices) 24).2

/-- The per-hub body of the loop in
`EnergyCalculator.fetch_and_store_all_data` (energy_calculator.py lines
48-105).  `.ok db` means the loop continues with state `db`; `.error db`
means an exception escaped the loop body with state `db` — the function
has no per-hub handler, so such an exception aborts the whole loop and
lands in the single outer `except` (lines 110-112).  A dormant hub
(empty/absent `userId`) is skipped before any write (lines 56-58). -/
def processHub (S : RemoteSnapshot) (today : String) (db : DBState)
    (hub : HubDoc) : Except DBState DBState :=
  if effUserId hub = "" then .ok db
  else
    let db1 := (addHub db (effHubId hub) (effHubCode hub) (effUserId hub) (effHomeType hub)).2
    match S.devicesByHub (effHubCode hub) with
    | .error _ => .error db1
    | .ok devices =>
      let db2 := devices.foldl (fun acc d =>
        (addDevice acc (effDeviceId d) (effHubCode hub) (effDeviceType d) d.isOn).2) db1
      match S.roomsByHub (effHubCode hub) with
      | .error _ => .error db2
      | .ok rooms =>
        let db3 := rooms.foldl (fun acc r =>
          let room_id := r.roomId.getD "unknown"
          let room_name := r.roomName.getD room_id
          (addRoom acc room_id room_name (effHubCode hub) (extractDeviceIds r.devices)).2) db2
        .ok (calcAndStoreDailyEnergy hub devices db3 today)

/-- The hub loop of `fetch_and_store_all_data`, threading the database
state and short-circuiting when a loop body raises. -/
def syncHubs (S : RemoteSnapshot) (today : String) :
    List HubDoc → DBState → Except DBState DBState
  | [], db => .ok db
  | h :: t, db =>
    match processHub S today db h with
    | .ok db1 => syncHubs S today t db1
    | .error db1 => .error db1

/-- `EnergyCalculator.fetch_and_store_all_data` (energy_calculator.py
lines 38-112): fetch all hubs, run the per-hub loop, return `True` on
normal completion.  The single `try/except` wrapping the whole body
catches any exception — from the initial fetch or from inside the loop —
logs it and returns `False`. -/
def fetchAndStoreAllData (S : RemoteSnapshot) (db : DBState) (today : String) :
    Bool × DBState :=
  match S.hubsResult with
  | .error _ => (false, db)
  | .ok hubs =>
    match syncHubs S today hubs db with
    | .ok db1 => (true, db1)
    | .error db1 => (false, db1)

/-- Whether every remote fetch the pass will perform succeeds: the
initial hub listing, and the device and room fetches of every
non-dormant hub. -/
def allFetchesOk (S : RemoteSnapshot) : Bool :=
  match S.hubsResult with
  | .error _ => false
  | .ok hubs => hubs.all (fun h =>
      decide (effUserId h = "") ||
        ((S.devicesByHub (effHubCode h)).isOk && (S.roomsByHub (effHubCode h)).isOk))

/-!
## Query / reporting layer (api_app.py)
-/

/-- The four per-period energy figures of a device, room or tenant. -/
@[ext] structure PeriodVals where
  daily : ℚ
  weekly : ℚ
  monthly : ℚ
  yearly : ℚ
deriving DecidableEq, Repr

/-- One entry of the `room_devices` list handed to
`calculate_room_energy`: a dictionary carrying `device_type`, or any
non-dictionary value (skipped by the `isinstance(device, dict)` guard). -/
inductive CREntry where
  | dict (device_type : String)
  | other
deriving DecidableEq, Repr

/-- `calculate_room_energy(room_devices, device_manager, time_multiplier)`
(api_app.py lines 88-120): sum, over the dictionary entries, the rating
rate (default `0.0`) times the 24/10-hour policy times the period
multiplier. -/
def calculateRoomEnergy (room_devices : List CREntry) (time_multiplier : ℚ) : ℚ :=
  room_devices.foldl (fun total e =>
    match e with
    | .dict dt =>
      let device_type := strLower dt
      let rate := energyRate device_type 0.0
      let hours : ℚ := if device_type ∈ ["thermostat", "door", "smartdoor"] then 24.0 else 10.0
      total + rate * hours * time_multiplier
    | .other => total) 0

/-- The four per-period simulated room figures emitted by
`get_hub_energy_data` (api_app.py lines 351-376): multipliers 1, 7, 30
and 365 over the same device list. -/
def hubSimRoomEnergy (room_devices : List CREntry) : PeriodVals :=
  ⟨calculateRoomEnergy room_devices 1.0, calculateRoomEnergy room_devices 7.0,
   calculateRoomEnergy room_devices 30.0, calculateRoomEnergy room_devices 365.0⟩

/-- The daily overlay step of `get_hub_energy_data` (api_app.py lines
378-391): when a stored daily figure for the room is available it
replaces only the daily value.  In the deployed code the fetch
`db.get_daily_energy_by_hub(hub_code)` raises `AttributeError` (the
method is commented out in database_manager.py) and the `except` at line
390 swallows it, so the override argument is in fact always `none`. -/
def hubSimRoomWithOverride (room_devices : List CREntry) (override : Option ℚ) :
    PeriodVals :=
  let base := hubSimRoomEnergy room_devices
  match override with
  | some v => { base with daily := v }
  | none => base

/-- The rate lookup of `get_room_energy_data` (api_app.py lines
1006-1015): lower-case, strip spaces, look up with default `0.05`, then
the two alternative mappings for names the normalisation missed. -/
def roomViewRate (device_type : String) : ℚ :=
  let key := stripSpaces (strLower device_type)
  let hourly_rate := energyRate key 0.05
  let lower := strLower device_type
  if hourly_rate = 0.05 ∧ (lower = "air conditioner" ∨ lower = "air-conditioner") then
    energyRate "airconditioner" 0.05
  else if hourly_rate = 0.05 ∧ lower = "smart door" then
    energyRate "door" 0.05
  else hourly_rate

/-- The usage-hours policy of `get_room_energy_data` (api_app.py lines
1017-1028). -/
def roomViewDailyHours (device_type : String) : ℚ :=
  let lower := strLower device_type
  if lower ∈ ["thermostat", "smartdoor", "door"] then 24
  else if lower ∈ ["light", "fan"] then 10
  else if lower ∈ ["tv", "airconditioner", "ac", "air conditioner"] then 8
  else if lower = "dishwasher" then 2
  else 6

/-- The four simulated per-device blocks of `get_room_energy_data`
(api_app.py lines 1030-1083): weekly/monthly/yearly hours are the daily
hours times 7 / 30 / 365, each energy being rate times hours. -/
def roomViewSimBlocks (device_type : String) : PeriodVals :=
  let rate := roomViewRate device_type
  let dh := roomViewDailyHours device_type
  ⟨rate * dh, rate * (dh * 7), rate * (dh * 30), rate * (dh * 365)⟩

/-- The emitted per-device values of `get_room_energy_data` after the
real-data daily overlay (api_app.py lines 1109-1131, which replaces only
the daily figure when a stored `energy_daily` row for the device exists)
and the final two-decimal rounding of every device value (lines
1142-1146). -/
def roomViewDeviceFinal (device_type : String) (dailyOverride : Option ℚ) :
    PeriodVals :=
  let base := roomViewSimBlocks device_type
  let base2 := match dailyOverride with
    | some v => { base with daily := v }
    | none => base
  ⟨pyRound2 base2.daily, pyRound2 base2.weekly, pyRound2 base2.monthly, pyRound2 base2.yearly⟩

/-!
## The "real" hub energy view (api_app.py lines 451-629) and the
commented-out `get_daily_energy_by_hub` accessor it relies on.
-/

/-- One device entry of the dictionary returned by
`get_daily_energy_by_hub`. -/
@[ext] structure DailyDeviceData where
  device_type : String
  energy_value : ℚ
  usage_hours : ℚ
deriving DecidableEq, Repr

/-- The dictionary returned by `DatabaseManager.get_daily_energy_by_hub`.
`devices` is keyed by `device_id`. -/
@[ext] structure DailyEnergyData where
  total_energy : ℚ
  devices : List (String × DailyDeviceData)
deriving DecidableEq, Repr

/-- `DatabaseManager.get_daily_energy_by_hub` as written in its
commented-out source (database_manager.py lines 1246-1323): fetch the
first `hub_total` row (`device_id IS NULL`) for the hub and date — if
there is none, return a zero-total dictionary with no devices —
otherwise also collect every device-level row of that hub and date. -/
def getDailyEnergyByHub (db : DBState) (hub_code date_str : String) :
    DailyEnergyData :=
  match db.energy_daily.find? (fun r =>
      decide (r.hub_code = hub_code) && decide (r.date = date_str) && r.device_id.isNone) with
  | none => ⟨0, []⟩
  | some ht =>
    let devs := (db.energy_daily.filter (fun r =>
        decide (r.hub_code = hub_code) && decide (r.date = date_str) && r.device_id.isSome)).foldl
      (fun acc r => upsertBy acc (r.device_id.getD "") ⟨r.device_type, r.energy_kwh, r.usage_hours⟩) []
    ⟨ht.energy_kwh, devs⟩

/-- In the live class there is no `get_daily_energy_by_hub` attribute
(its definition is commented out), so the guarded call at api_app.py
lines 529-532 raises `AttributeError`, the `except` logs a warning and
`daily_data` stays `None` — for every database state. -/
def realEnergyDailyLookup (db : DBState) (hub_code today : String) :
    Option DailyEnergyData := none

/-- A room as returned by `DeviceDataManager.get_rooms_by_hub_code`
(device_data_manager.py lines 212-242), which always attaches a
`device_details` list (one `device_type` string per resolvable member
device). -/
structure FsRoom where
  roomId : Option String
  roomName : Option String
  devices : List RoomDeviceItem
  device_details : List String
deriving DecidableEq, Repr

/-- `room.get('roomName', f"Room {room_id}")` with
`room_id = room.get('roomId', '')` (api_app.py lines 548-549). -/
def fsRoomName (r : FsRoom) : String :=
  r.roomName.getD ("Room " ++ r.roomId.getD "")

/-- The device-id extraction loop of the API endpoints (api_app.py lines
558-564): strings pass through, dictionaries contribute
`get('deviceId', '')`, anything else is skipped. -/
def apiExtractIds (items : List RoomDeviceItem) : List String :=
  items.foldl (fun acc it =>
    match it with
    | .strId s => acc ++ [s]
    | .objRef d => acc ++ [d.getD ""]) []

/-- One per-room block of the real hub view. -/
@[ext] structure RealRoomBlock where
  energy_value : ℚ
  device_count : Nat
deriving DecidableEq, Repr

/-- The room-structured body of the real hub view. -/
@[ext] structure RealHubView where
  daily_total : ℚ
  daily_rooms : List (String × RealRoomBlock)
  weekly_rooms : List (String × RealRoomBlock)
  monthly_rooms : List (String × RealRoomBlock)
  yearly_rooms : List (String × RealRoomBlock)
deriving DecidableEq, Repr

/-- The daily room population of `get_hub_real_energy_data` (api_app.py
lines 546-589) for one room, given the fetched daily data: member
devices found in `daily_data["devices"]` contribute their stored energy
and device type (the `elif device_id in devices_map` arm can never fire,
since `devices_map` has exactly the keys of `daily_data["devices"]`);
rooms with a non-empty `device_details` list then use it as the device
list instead. -/
def realDailyRoomBlock (dd : DailyEnergyData) (r : FsRoom) :
    String × RealRoomBlock :=
  let ids := apiExtractIds r.devices
  let found := ids.filterMap (fun i => (dd.devices.lookup i).map (fun v => v.energy_value))
  let room_energy := found.sum
  let room_devices_count := if r.device_details ≠ [] then r.device_details.length else found.length
  (fsRoomName r, ⟨room_energy, room_devices_count⟩)

/-- The weekly/monthly/yearly room emission of `get_hub_real_energy_data`
(api_app.py lines 591-623): every room is emitted with
`energy_value: 0`.  When a room's `device_details` is empty the code
falls back to the name `devices_map`, which is **unbound** when
`daily_data` was `None` (it is only assigned at line 539) — that
`NameError` escapes to the outer handler and the request fails with
status 500, which the `.error` result models. -/
def realOtherRooms (dailyWasNone : Bool) (devices_map_keys : List String)
    (rooms : List FsRoom) : Except Nat (List (String × RealRoomBlock)) :=
  if dailyWasNone ∧ rooms.any (fun r => r.device_details.isEmpty) then .error 500
  else .ok (rooms.map (fun r =>
    let cnt := if r.device_details ≠ [] then r.device_details.length
      else ((apiExtractIds r.devices).filter (fun i => decide (i ∈ devices_map_keys))).length
    (fsRoomName r, ⟨0, cnt⟩)))

/-- The response assembly of `get_hub_real_energy_data` from line 527 on,
parameterised by the result of the daily-data fetch. -/
def buildRealHubView (daily_data : Option DailyEnergyData) (rooms : List FsRoom) :
    Except Nat RealHubView :=
  let keys := match daily_data with
    | some dd => dd.devices.map (fun p => p.1)
    | none => []
  match realOtherRooms daily_data.isNone keys rooms with
  | .error c => .error c
  | .ok others =>
    match daily_data with
    | some dd =>
      .ok ⟨dd.total_energy, rooms.map (realDailyRoomBlock dd), others, others, others⟩
    | none => .ok ⟨0, [], others, others, others⟩

/-- `get_hub_real_energy_data` (api_app.py lines 451-629): the
tenant-hub guards (404 for a missing hub or no rooms, 403 for a
non-tenant hub), then the view assembly with the daily data fetched
through the broken accessor. -/
def getHubRealEnergyData (hubFound : Bool) (homeType : String)
    (rooms : List FsRoom) (db : DBState) (hub_code today : String) :
    Except Nat RealHubView :=
  if !hubFound then .error 404
  else if strLower homeType ≠ "tenant" then .error 403
  else if rooms = [] then .error 404
  else buildRealHubView (realEnergyDailyLookup db hub_code today) rooms

/-!
## The admin hub view (api_app.py lines 1155-1349)
-/

/-- The per-tenant inputs of the admin aggregation loop: the tenant hub
code, the display name computed at lines 1246-1271, and the results of
awaiting the tenant's real and simulated hub-energy endpoints (`.error`
models the call raising, e.g. an `HTTPException`). -/
structure TenantFetch where
  code : String
  name : String
  realView : Except Unit PeriodVals
  simView : Except Unit PeriodVals
deriving Repr

/-- The nested fallback of api_app.py lines 1278-1288: try the real
endpoint; if it raises, try the simulated one; if that also raises the
inner `except` only logs a warning and `tenant_data` stays `None`.
Consequently the outer `except` at line 1308 — the branch that would
fabricate a pseudo-random substitute figure (lines 1311-1337) — can only
run if the accumulation code below it raises, which it cannot: that
branch is unreachable and has no effect in the embedding. -/
def tenantResolved (t : TenantFetch) : Option PeriodVals :=
  match t.realView with
  | .ok v => some v
  | .error _ =>
    match t.simView with
    | .ok v => some v
    | .error _ => none

/-- The admin response: four period totals and, per period, the
`tenant_hubs` dictionary keyed by tenant display name with
`(hub_id, energy_value)` entries. -/
@[ext] structure AdminView where
  daily_total : ℚ
  weekly_total : ℚ
  monthly_total : ℚ
  yearly_total : ℚ
  daily_tenants : List (String × String × ℚ)
  weekly_tenants : List (String × String × ℚ)
  monthly_tenants : List (String × String × ℚ)
  yearly_tenants : List (String × String × ℚ)
deriving DecidableEq, Repr

/-- One iteration of the tenant loop (api_app.py lines 1290-1306): a
resolved tenant adds its per-period `total_energy` to the admin totals
and is written into each period's `tenant_hubs` dictionary; an
unresolved tenant leaves the accumulator untouched. -/
def adminStep (acc : AdminView) (t : TenantFetch) : AdminView :=
  match tenantResolved t with
  | none => acc
  | some v =>
    ⟨acc.daily_total + v.daily, acc.weekly_total + v.weekly,
     acc.monthly_total + v.monthly, acc.yearly_total + v.yearly,
     upsertBy acc.daily_tenants t.name (t.code, v.daily),
     upsertBy acc.weekly_tenants t.name (t.code, v.weekly),
     upsertBy acc.monthly_tenants t.name (t.code, v.monthly),
     upsertBy acc.yearly_tenants t.name (t.code, v.yearly)⟩

/-- `get_admin_hub_energy_data` (api_app.py lines 1155-1349) after its
admin-hub guards: fold the tenant loop over the `units` list and apply
the final two-decimal rounding of every total and tenant value (lines
1339-1343). -/
def getAdminHubEnergyData (tenants : List TenantFetch) : AdminView :=
  let a := tenants.foldl adminStep ⟨0, 0, 0, 0, [], [], [], []⟩
  ⟨pyRound2 a.daily_total, pyRound2 a.weekly_total,
   pyRound2 a.monthly_total, pyRound2 a.yearly_total,
   a.daily_tenants.map (fun p => (p.1, p.2.1, pyRound2 p.2.2)),
   a.weekly_tenants.map (fun p => (p.1, p.2.1, pyRound2 p.2.2)),
   a.monthly_tenants.map (fun p => (p.1, p.2.1, pyRound2 p.2.2)),
   a.yearly_tenants.map (fun p => (p.1, p.2.1, pyRound2 p.2.2))⟩

/-!
## Top consumers (database_manager.py lines 620-721, route api_app.py
lines 181-199)
-/

/-- The wall-clock context computed at database_manager.py lines
640-645. -/
structure NowCtx where
  date : String
  year : Nat
  week : Nat
  month : Nat
deriving DecidableEq, Repr

/-- One result row of `get_top_consumers`: a device-level measurement row
joined with the device's stored status and the hub's home type. -/
@[ext] structure ConsumerRow where
  device_id : String
  device_type : String
  hub_code : String
  energy_kwh : ℚ
  status : Bool
  home_type : String
deriving DecidableEq, Repr

/-- The `ORDER BY energy_kwh DESC` ordering. -/
def consumerDesc (a b : ConsumerRow) : Prop := b.energy_kwh ≤ a.energy_kwh

instance : DecidableRel consumerDesc := fun a b =>
  inferInstanceAs (Decidable (b.energy_kwh ≤ a.energy_kwh))

instance : IsTotal ConsumerRow consumerDesc :=
  ⟨fun a b => le_total b.energy_kwh a.energy_kwh⟩

instance : IsTrans ConsumerRow consumerDesc :=
  ⟨fun a b c h1 h2 => le_trans h2 h1⟩

/-- The daily branch of `get_top_consumers` (lines 647-658) before
ordering: `energy_daily` rows of the user for today's date with
`device_id IS NOT NULL`, inner-joined with `devices` on `device_id` and
with `hubs` on `hub_code` (both join keys are unique in their parent
tables, so `find?` is the join). -/
def joinDailyConsumers (db : DBState) (uid date : String) : List ConsumerRow :=
  (db.energy_daily.filter (fun r =>
      decide (r.user_id = uid) && decide (r.date = date) && r.device_id.isSome)).filterMap
    (fun r =>
      match r.device_id with
      | none => none
      | some did =>
        match db.devices.find? (fun d => decide (d.device_id = did)) with
        | none => none
        | some d =>
          match db.hubs.find? (fun h => decide (h.hub_code = r.hub_code)) with
          | none => none
          | some h => some ⟨did, r.device_type, r.hub_code, r.energy_kwh, d.status, h.home_type⟩)

/-- The weekly branch (lines 660-672). -/
def joinWeeklyConsumers (db : DBState) (uid : String) (year week : Nat) :
    List ConsumerRow :=
  (db.energy_weekly.filter (fun r =>
      decide (r.user_id = uid) && decide (r.year = year) && decide (r.week = week) && r.device_id.isSome)).filterMap
    (fun r =>
      match r.device_id with
      | none => none
      | some did =>
        match db.devices.find? (fun d => decide (d.device_id = did)) with
        | none => none
        | some d =>
          match db.hubs.find? (fun h => decide (h.hub_code = r.hub_code)) with
          | none => none
          | some h => some ⟨did, r.device_type, r.hub_code, r.energy_kwh, d.status, h.home_type⟩)

/-- The monthly branch (lines 674-686). -/
def joinMonthlyConsumers (db : DBState) (uid : String) (year month : Nat) :
    List ConsumerRow :=
  (db.energy_monthly.filter (fun r =>
      decide (r.user_id = uid) && decide (r.year = year) && decide (r.month = month) && r.device_id.isSome)).filterMap
    (fun r =>
      match r.device_id with
      | none => none
      | some did =>
        match db.devices.find? (fun d => decide (d.device_id = did)) with
        | none => none
        | some d =>
          match db.hubs.find? (fun h => decide (h.hub_code = r.hub_code)) with
          | none => none
          | some h => some ⟨did, r.device_type, r.hub_code, r.energy_kwh, d.status, h.home_type⟩)

/-- The yearly branch (lines 688-700). -/
def joinYearlyConsumers (db : DBState) (uid : String) (year : Nat) :
    List ConsumerRow :=
  (db.energy_yearly.filter (fun r =>
      decide (r.user_id = uid) && decide (r.year = year) && r.device_id.isSome)).filterMap
    (fun r =>
      match r.device_id with
      | none => none
      | some did =>
        match db.devices.find? (fun d => decide (d.device_id = did)) with
        | none => none
        | some d =>
          match db.hubs.find? (fun h => decide (h.hub_code = r.hub_code)) with
          | none => none
          | some h => some ⟨did, r.device_type, r.hub_code, r.energy_kwh, d.status, h.home_type⟩)

/-- `DatabaseManager.get_top_consumers` (lines 620-721): dispatch on the
period, order by `energy_kwh` descending, return the first `limit` rows;
an unrecognised period returns `[]` (line 703).  The function itself
places no bound on `limit`. -/
def getTopConsumers (db : DBState) (now : NowCtx) (user_id time_period : String)
    (limit : Nat) : List ConsumerRow :=
  if time_period = "daily" then
    (List.insertionSort consumerDesc (joinDailyConsumers db user_id now.date)).take limit
  else if time_period = "weekly" then
    (List.insertionSort consumerDesc (joinWeeklyConsumers db user_id now.year now.week)).take limit
  else if time_period = "monthly" then
    (List.insertionSort consumerDesc (joinMonthlyConsumers db user_id now.year now.month)).take limit
  else if time_period = "yearly" then
    (List.insertionSort consumerDesc (joinYearlyConsumers db user_id now.year)).take limit
  else []

/-- The route-level validation of `limit` (api_app.py line 185:
`Query(5, ge=1, le=20)`): FastAPI rejects requests outside `[1, 20]`
before `get_top_consumers` is ever called. -/
def topConsumersRouteAccepts (limit : Int) : Bool := 1 ≤ limit && limit ≤ 20

/-!
## Helper lemmas
-/

/-- Looking a key up after appending it to an association list in which it
does not occur. -/
theorem lookup_append_fresh {β : Type} (k : String) (v : β) :
    ∀ s : List (String × β), (∀ p ∈ s, p.1 ≠ k) →
      ((s ++ [(k, v)]).lookup k) = some v := by
  intro s
  induction s with
  | nil => intro _; simp [List.lookup]
  | cons p t ih =>
    intro h
    have hp : p.1 ≠ k := h p (by simp)
    have : (k == p.1) = false := by
      simp [beq_iff_eq]
      exact fun e => hp e.symm
    simp [List.lookup, this]
    exact ih (fun q hq => h q (by simp [hq]))

/-- Looking a key up after overwriting its entry in an association list
that contains it. -/
theorem lookup_map_overwrite {β : Type} (k : String) (v : β) :
    ∀ s : List (String × β), s.any (fun p => decide (p.1 = k)) = true →
      ((s.map (fun p => if p.1 = k then (k, v) else p)).lookup k) = some v := by
  intro s
  induction s with
  | nil => intro h; simp at h
  | cons p t ih =>
    intro h
    by_cases hp : p.1 = k
    · rw [List.map_cons, if_pos hp]
      simp [List.lookup]
    · rw [List.map_cons, if_neg hp]
      have hb : (k == p.1) = false := by
        simp [beq_iff_eq]
        exact fun e => hp e.symm
      simp only [List.lookup, hb]
      apply ih
      simpa [hp] using h

/-- `upsertBy` always leaves the key bound to the new value. -/
theorem lookup_upsertBy {β : Type} (s : List (String × β)) (k : String) (v : β) :
    ((upsertBy s k v).lookup k) = some v := by
  unfold upsertBy
  by_cases h : s.any (fun p => decide (p.1 = k)) = true
  · rw [if_pos h]; exact lookup_map_overwrite k v s h
  · rw [if_neg h]
    apply lookup_append_fresh
    intro p hp hk
    exact h (List.any_eq_true.mpr ⟨p, hp, by simp [hk]⟩)

/-- `addUser` touches only the `users` table. -/
theorem addUser_frame (db : DBState) (u : String) :
    (addUser db u).2.hubs = db.hubs ∧
    (addUser db u).2.devices = db.devices ∧
    (addUser db u).2.rooms = db.rooms ∧
    (addUser db u).2.room_devices = db.room_devices ∧
    (addUser db u).2.energy_daily = db.energy_daily ∧
    (addUser db u).2.hub_summary = db.hub_summary := by
  unfold addUser
  by_cases h : u ∈ db.users <;> simp [h]

/-- The per-device store loop of `_calculate_and_store_daily_energy`
appends exactly one `energy_daily` row per device (and touches nothing
else) whenever the hub's code is present in `hubs`. -/
theorem foldStoreDaily (today uid code : String) :
    ∀ (devices : List DeviceDoc) (db : DBState), code ∈ hubCodes db →
      devices.foldl (fun acc d =>
        (storeDailyEnergy acc today uid code (effDeviceId d) (effDeviceType d)
          (deviceEnergyHours d).1 (deviceEnergyHours d).2).2) db
      = { db with energy_daily := db.energy_daily ++ devices.map (fun d =>
          ⟨today, uid, code, some (effDeviceId d), effDeviceType d,
           (deviceEnergyHours d).1, (deviceEnergyHours d).2⟩) }
  | [], db, h => by simp
  | d :: t, db, h => by
    have hstep : (storeDailyEnergy db today uid code (effDeviceId d) (effDeviceType d)
        (deviceEnergyHours d).1 (deviceEnergyHours d).2).2
        = { db with energy_daily := db.energy_daily ++
            [⟨today, uid, code, some (effDeviceId d), effDeviceType d,
              (deviceEnergyHours d).1, (deviceEnergyHours d).2⟩] } := by
      simp [storeDailyEnergy, h]
    have ih := foldStoreDaily today uid code t
      { db with energy_daily := db.energy_daily ++
        [⟨today, uid, code, some (effDeviceId d), effDeviceType d,
          (deviceEnergyHours d).1, (deviceEnergyHours d).2⟩] } h
    rw [List.foldl_cons, hstep, ih]
    simp

/-- `store_hub_daily_total` always reports success (the foreign-keys-OFF
retry cannot fail), appends its `hub_total` row and replaces the
`hub_summary` row, besides ensuring the user. -/
theorem storeHubDailyTotal_effect (db : DBState) (d u c : String) (e us : ℚ) :
    (storeHubDailyTotal db d u c e us).1 = true ∧
    (storeHubDailyTotal db d u c e us).2 =
      { (addUser db u).2 with
        energy_daily := db.energy_daily ++ [⟨d, u, c, none, "hub_total", e, us⟩],
        hub_summary := upsertBy db.hub_summary c ⟨u, e, 0, 0, 0, 0⟩ } := by
  have h1 : (addUser db u).2.energy_daily = db.energy_daily := (addUser_frame db u).2.2.2.2.1
  have h2 : (addUser db u).2.hub_summary = db.hub_summary := (addUser_frame db u).2.2.2.2.2
  unfold storeHubDailyTotal storeHubDailyTotalAttempt
  by_cases hc : c ∈ hubCodes (addUser db u).2 <;>
    simp [hc, h1, h2, hubSummaryDefaults]

/-!
## C10
-/

/-- C10: every call to `store_hub_daily_total` replaces the whole
`hub_summary` row of that hub code via insert-or-replace supplying only
`user_id` and `daily_energy`: afterwards the row holds the supplied user
and daily figure and the schema defaults — `weekly_energy = 0`,
`monthly_energy = 0`, `yearly_energy = 0`, `device_count = 0` — whatever
rollup values the row held before. -/
theorem c10_hub_summary_reset (db : DBState) (date_str user_id hub_code : String)
    (energy usage : ℚ) :
    ((storeHubDailyTotal db date_str user_id hub_code energy usage).2.hub_summary).lookup hub_code
      = some ⟨user_id, energy, 0, 0, 0, 0⟩ := by
  have h := (storeHubDailyTotal_effect db date_str user_id hub_code energy usage).2
  rw [h]
  exact lookup_upsertBy db.hub_summary hub_code ⟨user_id, energy, 0, 0, 0, 0⟩

/-!
## C5
-/

/-- C5: dormant-hub exclusion.  A hub record whose `userId` is empty or
absent is skipped before any write: the per-hub loop body returns the
database unchanged, and a pass over any list of such hubs leaves the
whole store untouched (so no hub, device, room or measurement row is
ever produced for it, in every pass). -/
theorem c5_dormant_hub_skipped :
    (∀ (S : RemoteSnapshot) (today : String) (db : DBState) (hub : HubDoc),
      effUserId hub = "" → processHub S today db hub = .ok db) ∧
    (∀ (S : RemoteSnapshot) (today : String) (hubs : List HubDoc) (db : DBState),
      (∀ h ∈ hubs, effUserId h = "") → syncHubs S today hubs db = .ok db) := by
  constructor
  · intro S today db hub h
    simp [processHub, h]
  · intro S today hubs
    induction hubs with
    | nil => intro db _; rfl
    | cons h t ih =>
      intro db hall
      have h1 : processHub S today db h = .ok db := by
        simp [processHub, hall h (by simp)]
      simp only [syncHubs, h1]
      exact ih db (fun x hx => hall x (by simp [hx]))

/-- A concrete dormant hub record (a `userId` key bound to nothing is
`none`; the loop's `hub.get('userId', '')` turns it into `""`). -/
def dormantHubDoc : HubDoc := ⟨some "hub-1", some "HUB1", none, some "tenant"⟩

/-- A one-hub snapshot around `dormantHubDoc`. -/
def dormantSnapshot : RemoteSnapshot :=
  ⟨.ok [dormantHubDoc], fun _ => .ok [], fun _ => .ok []⟩

/-- Witness for C5 at a concrete dormant hub: the loop body leaves the
empty database exactly as it is. -/
theorem c5_dormant_hub_skipped_witness :
    processHub dormantSnapshot "2026-01-01" emptyDB dormantHubDoc = .ok emptyDB :=
  c5_dormant_hub_skipped.1 dormantSnapshot "2026-01-01" emptyDB dormantHubDoc (by decide)

/-!
## C4
-/

/-- C4: the per-device daily-energy rule and the hub total.  An off
device yields exactly zero energy and zero usage hours whatever its
type; an on device gets 24 usage hours when its lower-cased type is
thermostat/door/smartdoor and 10 otherwise, with energy = rating-table
rate (0 for unknown types) times those hours; the per-device loop writes
one daily row per device and the hub-total row written afterwards
carries exactly the sum of the per-device energies.  In particular an on
thermostat yields 1.2 kWh over 24 h and an on light 0.6 kWh over 10 h. -/
theorem c4_per_device_rule :
    (∀ d : DeviceDoc, d.isOn = false → deviceEnergyHours d = (0, 0)) ∧
    (∀ d : DeviceDoc, d.isOn = true →
      deviceEnergyHours d =
        (energyRate (effDeviceType d) 0.0 *
          (if effDeviceType d ∈ ["thermostat", "door", "smartdoor"] then (24.0 : ℚ) else 10.0),
         if effDeviceType d ∈ ["thermostat", "door", "smartdoor"] then (24.0 : ℚ) else 10.0)) ∧
    (∀ (hub : HubDoc) (devices : List DeviceDoc) (db : DBState) (today : String),
      calcHubCode hub ∈ hubCodes db →
      (calcAndStoreDailyEnergy hub devices db today).energy_daily =
        db.energy_daily ++
          devices.map (fun d =>
            ⟨today, calcUserId hub, calcHubCode hub, some (effDeviceId d), effDeviceType d,
             (deviceEnergyHours d).1, (deviceEnergyHours d).2⟩) ++
          [⟨today, calcUserId hub, calcHubCode hub, none, "hub_total",
            (devices.map (fun d => (deviceEnergyHours d).1)).sum, 24⟩]) ∧
    deviceEnergyHours ⟨some "t1", some "Thermostat", true⟩ = (1.2, 24) ∧
    deviceEnergyHours ⟨some "l1", some "light", true⟩ = (0.6, 10) := by
  refine ⟨?_, ?_, ?_, ?_, ?_⟩
  · intro d h
    simp [deviceEnergyHours, h]
  · intro d h
    simp [deviceEnergyHours, h]
  · intro hub devices db today h
    unfold calcAndStoreDailyEnergy
    dsimp only
    rw [foldStoreDaily today (calcUserId hub) (calcHubCode hub) devices db h]
    have he := (storeHubDailyTotal_effect
      { db with energy_daily := db.energy_daily ++ devices.map (fun d =>
          ⟨today, calcUserId hub, calcHubCode hub, some (effDeviceId d), effDeviceType d,
           (deviceEnergyHours d).1, (deviceEnergyHours d).2⟩) }
      today (calcUserId hub) (calcHubCode hub) (hubDailyTotal devices) 24).2
    rw [he]
    simp [hubDailyTotal]
  · have ht : strLower "Thermostat" = "thermostat" := by decide
    norm_num [deviceEnergyHours, effDeviceType, ht, energyRate]
    simp
  · have hl : strLower "light" = "light" := by decide
    norm_num [deviceEnergyHours, effDeviceType, hl, energyRate]
    simp

/-!
## C6
-/

/-- The accumulator of `calculate_room_energy` starts anywhere: folding
from `a` adds the sum obtained from `0`. -/
theorem calcRoomEnergy_foldl_shift (m : ℚ) :
    ∀ (l : List CREntry) (a : ℚ),
      l.foldl (fun total e =>
        match e with
        | .dict dt =>
          let device_type := strLower dt
          let rate := energyRate device_type 0.0
          let hours : ℚ := if device_type ∈ ["thermostat", "door", "smartdoor"] then 24.0 else 10.0
          total + rate * hours * m
        | .other => total) a
      = a + calculateRoomEnergy l m
  | [], a => by simp [calculateRoomEnergy]
  | .dict dt :: t, a => by
    simp only [calculateRoomEnergy, List.foldl_cons]
    rw [calcRoomEnergy_foldl_shift m t, calcRoomEnergy_foldl_shift m t]
    ring
  | .other :: t, a => by
    simp only [calculateRoomEnergy, List.foldl_cons]
    rw [calcRoomEnergy_foldl_shift m t, calcRoomEnergy_foldl_shift m t]
    ring

/-- `calculate_room_energy` is linear in its time multiplier. -/
theorem calcRoomEnergy_mul (m : ℚ) :
    ∀ l : List CREntry, calculateRoomEnergy l m = m * calculateRoomEnergy l 1
  | [] => by simp [calculateRoomEnergy]
  | .dict dt :: t => by
    simp only [calculateRoomEnergy, List.foldl_cons]
    rw [calcRoomEnergy_foldl_shift m t, calcRoomEnergy_foldl_shift 1 t,
      calcRoomEnergy_mul m t]
    ring
  | .other :: t => by
    simp only [calculateRoomEnergy, List.foldl_cons]
    exact calcRoomEnergy_mul m t

/-- `pyRound2` is the identity on any rational with at most two decimal
places. -/
theorem pyRound2_eq_self (q : ℚ) (h : ∃ n : ℤ, q * 100 = n) : pyRound2 q = q := by
  obtain ⟨n, hn⟩ := h
  unfold pyRound2 pyRoundHalfEven
  rw [hn, Int.floor_intCast]
  rw [sub_self, if_pos (by norm_num : (0 : ℚ) < 1/2)]
  rw [div_eq_iff (by norm_num : (100 : ℚ) ≠ 0)]
  exact hn.symm

set_option maxHeartbeats 1000000 in
/-- Every rating-table rate, and any default with two decimal places,
times 100 is an integer. -/
theorem energyRate_centi (t : String) (d : ℚ) (hd : ∃ n : ℤ, d * 100 = n) :
    ∃ n : ℤ, energyRate t d * 100 = n := by
  unfold energyRate
  by_cases h1 : t = "ac"
  · simp only [if_pos h1]
    exact ⟨150, by norm_num⟩
  simp only [if_neg h1]
  by_cases h2 : t = "airconditioner"
  · simp only [if_pos h2]
    exact ⟨150, by norm_num⟩
  simp only [if_neg h2]
  by_cases h3 : t = "dishwasher"
  · simp only [if_pos h3]
    exact ⟨100, by norm_num⟩
  simp only [if_neg h3]
  by_cases h4 : t = "tv"
  · simp only [if_pos h4]
    exact ⟨10, by norm_num⟩
  simp only [if_neg h4]
  by_cases h5 : t = "light"
  · simp only [if_pos h5]
    exact ⟨6, by norm_num⟩
  simp only [if_neg h5]
  by_cases h6 : t = "thermostat"
  · simp only [if_pos h6]
    exact ⟨5, by norm_num⟩
  simp only [if_neg h6]
  by_cases h7 : t = "fan"
  · simp only [if_pos h7]
    exact ⟨3, by norm_num⟩
  simp only [if_neg h7]
  by_cases h8 : t = "door"
  · simp only [if_pos h8]
    exact ⟨1, by norm_num⟩
  simp only [if_neg h8]
  by_cases h9 : t = "smartdoor"
  · simp only [if_pos h9]
    exact ⟨1, by norm_num⟩
  simp only [if_neg h9]
  by_cases h10 : t = "heatconvector"
  · simp only [if_pos h10]
    exact ⟨120, by norm_num⟩
  simp only [if_neg h10]
  by_cases h11 : t = "washingmachine"
  · simp only [if_pos h11]
    exact ⟨50, by norm_num⟩
  simp only [if_neg h11]
  by_cases h12 : t = "speaker"
  · simp only [if_pos h12]
    exact ⟨10, by norm_num⟩
  simp only [if_neg h12]
  exact hd

set_option maxHeartbeats 1000000 in
/-- The room-view rate (whatever branch of the alternative mappings is
taken) times 100 is an integer. -/
theorem roomViewRate_centi (t : String) : ∃ n : ℤ, roomViewRate t * 100 = n := by
  unfold roomViewRate
  dsimp only
  by_cases ha : energyRate (stripSpaces (strLower t)) 0.05 = 0.05 ∧
      (strLower t = "air conditioner" ∨ strLower t = "air-conditioner")
  · simp only [if_pos ha]
    exact energyRate_centi _ _ ⟨5, by norm_num⟩
  simp only [if_neg ha]
  by_cases hb : energyRate (stripSpaces (strLower t)) 0.05 = 0.05 ∧ strLower t = "smart door"
  · simp only [if_pos hb]
    exact energyRate_centi _ _ ⟨5, by norm_num⟩
  simp only [if_neg hb]
  exact energyRate_centi _ _ ⟨5, by norm_num⟩

/-- The room-view usage-hours policy always returns an integer. -/
theorem roomViewDailyHours_int (t : String) : ∃ k : ℤ, roomViewDailyHours t = k := by
  unfold roomViewDailyHours
  dsimp only
  by_cases h1 : strLower t ∈ ["thermostat", "smartdoor", "door"]
  · simp only [if_pos h1]
    exact ⟨24, by norm_num⟩
  simp only [if_neg h1]
  by_cases h2 : strLower t ∈ ["light", "fan"]
  · simp only [if_pos h2]
    exact ⟨10, by norm_num⟩
  simp only [if_neg h2]
  by_cases h3 : strLower t ∈ ["tv", "airconditioner", "ac", "air conditioner"]
  · simp only [if_pos h3]
    exact ⟨8, by norm_num⟩
  simp only [if_neg h3]
  by_cases h4 : strLower t = "dishwasher"
  · simp only [if_pos h4]
    exact ⟨2, by norm_num⟩
  simp only [if_neg h4]
  exact ⟨6, by norm_num⟩

/-- C6: extrapolation consistency of the simulated views.  In the
simulated hub view, a room without a real daily override is emitted with
weekly = daily × 7, monthly = daily × 30 and yearly = daily × 365; in
the simulated room view the same holds for every device without a real
daily override, including the final two-decimal rounding (which is the
identity here, all rates having at most two decimals and all hour
policies being integers). -/
theorem c6_simulated_extrapolation :
    (∀ room_devices : List CREntry,
      (hubSimRoomWithOverride room_devices none).weekly
        = 7 * (hubSimRoomWithOverride room_devices none).daily ∧
      (hubSimRoomWithOverride room_devices none).monthly
        = 30 * (hubSimRoomWithOverride room_devices none).daily ∧
      (hubSimRoomWithOverride room_devices none).yearly
        = 365 * (hubSimRoomWithOverride room_devices none).daily) ∧
    (∀ device_type : String,
      (roomViewDeviceFinal device_type none).weekly
        = 7 * (roomViewDeviceFinal device_type none).daily ∧
      (roomViewDeviceFinal device_type none).monthly
        = 30 * (roomViewDeviceFinal device_type none).daily ∧
      (roomViewDeviceFinal device_type none).yearly
        = 365 * (roomViewDeviceFinal device_type none).daily) := by
  constructor
  · intro rd
    simp only [hubSimRoomWithOverride, hubSimRoomEnergy]
    rw [calcRoomEnergy_mul 1.0 rd, calcRoomEnergy_mul 7.0 rd,
      calcRoomEnergy_mul 30.0 rd, calcRoomEnergy_mul 365.0 rd]
    norm_num
  · intro t
    obtain ⟨n, hn⟩ := roomViewRate_centi t
    obtain ⟨k, hk⟩ := roomViewDailyHours_int t
    have h1 : pyRound2 (roomViewRate t * roomViewDailyHours t)
        = roomViewRate t * roomViewDailyHours t := by
      refine pyRound2_eq_self _ ⟨n * k, ?_⟩
      push_cast
      rw [← hn, ← hk]
      ring
    have h7 : pyRound2 (roomViewRate t * (roomViewDailyHours t * 7))
        = roomViewRate t * (roomViewDailyHours t * 7) := by
      refine pyRound2_eq_self _ ⟨n * k * 7, ?_⟩
      push_cast
      rw [← hn, ← hk]
      ring
    have h30 : pyRound2 (roomViewRate t * (roomViewDailyHours t * 30))
        = roomViewRate t * (roomViewDailyHours t * 30) := by
      refine pyRound2_eq_self _ ⟨n * k * 30, ?_⟩
      push_cast
      rw [← hn, ← hk]
      ring
    have h365 : pyRound2 (roomViewRate t * (roomViewDailyHours t * 365))
        = roomViewRate t * (roomViewDailyHours t * 365) := by
      refine pyRound2_eq_self _ ⟨n * k * 365, ?_⟩
      push_cast
      rw [← hn, ← hk]
      ring
    simp only [roomViewDeviceFinal, roomViewSimBlocks]
    rw [h1, h7, h30, h365]
    refine ⟨by ring, by ring, by ring⟩

/-!
## C3
-/

/-- A tenant whose real view resolves with a daily total of 5.0 kWh. -/
def tenantT1 : TenantFetch :=
  ⟨"T1", "Apartment Building A", .ok ⟨5, 35, 150, 1825⟩, .ok ⟨5, 35, 150, 1825⟩⟩

/-- A tenant with no data at all: both the real and the simulated
endpoint raise (e.g. a 404 `HTTPException`). -/
def tenantT2 : TenantFetch := ⟨"T2", "Apartment Building B", .error (), .error ()⟩

/-- The per-tenant daily contribution the admin loop actually adds. -/
def tenantDailyContribution (t : TenantFetch) : ℚ :=
  match tenantResolved t with
  | some v => v.daily
  | none => 0

/-- The admin daily total over any tenant list is the rounded sum of the
resolved tenants' daily figures. -/
theorem adminFold_daily :
    ∀ (ts : List TenantFetch) (acc : AdminView),
      (ts.foldl adminStep acc).daily_total
        = acc.daily_total + (ts.map tenantDailyContribution).sum
  | [], acc => by simp
  | t :: ts, acc => by
    rw [List.foldl_cons, adminFold_daily ts]
    cases h : tenantResolved t with
    | none => simp [adminStep, h, tenantDailyContribution]
    | some v => simp [adminStep, h, tenantDailyContribution]; ring

/-- Evaluation of the admin view on the `[T1, T2]` scenario. -/
theorem adminT1T2_eval :
    getAdminHubEnergyData [tenantT1, tenantT2] =
      ⟨pyRound2 5, pyRound2 35, pyRound2 150, pyRound2 1825,
       [("Apartment Building A", "T1", pyRound2 5)],
       [("Apartment Building A", "T1", pyRound2 35)],
       [("Apartment Building A", "T1", pyRound2 150)],
       [("Apartment Building A", "T1", pyRound2 1825)]⟩ := by
  simp [getAdminHubEnergyData, adminStep, tenantResolved, tenantT1, tenantT2, upsertBy]

/-- The rounded daily figure of the `[T1, T2]` scenario is exactly 5. -/
theorem adminT1T2_daily : (getAdminHubEnergyData [tenantT1, tenantT2]).daily_total = 5 := by
  rw [adminT1T2_eval]
  exact pyRound2_eq_self 5 ⟨500, by norm_num⟩

/-- C3 counterexample: with tenants `[T1, T2]` where T1's real daily
total is 5.0 and both of T2's fetches fail, the admin daily total is
exactly 5.0 — not in `[25, 75]` as the claim states — and only one
tenant entry is emitted: nothing is substituted for T2. -/
theorem c3_counterexample :
    (getAdminHubEnergyData [tenantT1, tenantT2]).daily_total = 5 ∧
    ¬ (25 ≤ (getAdminHubEnergyData [tenantT1, tenantT2]).daily_total) ∧
    (getAdminHubEnergyData [tenantT1, tenantT2]).daily_tenants.length = 1 := by
  refine ⟨adminT1T2_daily, ?_, ?_⟩
  · rw [adminT1T2_daily]
    norm_num
  · rw [adminT1T2_eval]
    rfl

/-- C3 amended: a tenant for which both the real and the simulated fetch
fail resolves to nothing — the inner `except` swallows the failure after
a log warning, so the tenant contributes 0 and gets no `tenant_hubs`
entry (the pseudo-random substitution handler is unreachable); every
admin daily total is the rounded sum of the resolved tenants' figures,
and in the `[T1, T2]` scenario the admin daily total is exactly 5.0. -/
theorem c3_amended :
    (∀ t : TenantFetch, t.realView.isOk = false → t.simView.isOk = false →
      tenantResolved t = none ∧ tenantDailyContribution t = 0) ∧
    (∀ ts : List TenantFetch,
      (getAdminHubEnergyData ts).daily_total
        = pyRound2 ((ts.map tenantDailyContribution).sum)) ∧
    (getAdminHubEnergyData [tenantT1, tenantT2]).daily_total = 5 := by
  refine ⟨?_, ?_, ?_⟩
  · intro t hr hs
    have h : tenantResolved t = none := by
      unfold tenantResolved
      cases hre : t.realView with
      | ok v => rw [hre] at hr; simp [Except.isOk, Except.toBool] at hr
      | error e =>
        cases hse : t.simView with
        | ok v => rw [hse] at hs; simp [Except.isOk, Except.toBool] at hs
        | error f => rfl
    exact ⟨h, by simp [tenantDailyContribution, h]⟩
  · intro ts
    unfold getAdminHubEnergyData
    dsimp only
    rw [adminFold_daily ts]
    norm_num
  · exact adminT1T2_daily

/-!
## C8
-/

/-- The claim's version of `add_device` — what the spec's failure
semantics describe: on a constraint violation the write is retried once
with referential integrity disabled, with which the insert or update
always succeeds.  The source `add_device` (database_manager.py lines
846-897) has no such branch; this definition exists only to be compared
against it. -/
def addDevice_specRetry (db : DBState) (device_id hub_code device_type : String)
    (status : Bool) : Bool × DBState :=
  match addDevice db device_id hub_code device_type status with
  | (true, db2) => (true, db2)
  | (false, _) =>
    if db.devices.any (fun d => decide (d.device_id = device_id)) then
      (true, { db with devices := db.devices.map (fun d =>
        if d.device_id = device_id then ⟨device_id, hub_code, device_type, status⟩ else d) })
    else (true, { db with devices := db.devices ++ [⟨device_id, hub_code, device_type, status⟩] })

/-- A store holding one user and no hubs. -/
def dbNoHubs : DBState := ⟨["u1"], [], [], [], ∅, [], [], [], [], []⟩

/-- C8 counterexample: a device write whose `hub_code` references no
existing hub is simply rejected by `add_device` — the call returns
`False` and the store is unchanged (no foreign-keys-OFF retry exists in
it), whereas under the claimed retry-once semantics the write would land
and the call would succeed. -/
theorem c8_counterexample :
    addDevice dbNoHubs "d1" "NOHUB" "light" true = (false, dbNoHubs) ∧
    addDevice_specRetry dbNoHubs "d1" "NOHUB" "light" true
      = (true, { dbNoHubs with devices := [⟨"d1", "NOHUB", "light", true⟩] }) := by
  constructor
  · rfl
  · rfl

/-- C8 amended: the retry-with-referential-integrity-disabled exists
only in `add_hub` and `store_hub_daily_total`.  `add_device` and
`store_daily_energy` have no retry: a dangling `hub_code` makes them
return `False` with the store unchanged (the write is abandoned and the
pass continues), while `store_hub_daily_total` always succeeds — its
retry writes the rows even when the hub is missing. -/
theorem c8_amended :
    (∀ (db : DBState) (device_id hub_code device_type : String) (status : Bool),
      hub_code ∉ hubCodes db →
        addDevice db device_id hub_code device_type status = (false, db)) ∧
    (∀ (db : DBState) (date_str user_id hub_code device_id device_type : String)
        (energy usage : ℚ),
      hub_code ∉ hubCodes db →
        storeDailyEnergy db date_str user_id hub_code device_id device_type energy usage
          = (false, db)) ∧
    (∀ (db : DBState) (date_str user_id hub_code : String) (energy usage : ℚ),
      (storeHubDailyTotal db date_str user_id hub_code energy usage).1 = true ∧
      (storeHubDailyTotal db date_str user_id hub_code energy usage).2.energy_daily
        = db.energy_daily ++ [⟨date_str, user_id, hub_code, none, "hub_total", energy, usage⟩]) := by
  refine ⟨?_, ?_, ?_⟩
  · intro db device_id hub_code device_type status h
    unfold addDevice
    by_cases he : db.devices.any (fun d => decide (d.device_id = device_id)) <;> simp [he, h]
  · intro db date_str user_id hub_code device_id device_type energy usage h
    simp [storeDailyEnergy, h]
  · intro db date_str user_id hub_code energy usage
    refine ⟨(storeHubDailyTotal_effect db date_str user_id hub_code energy usage).1, ?_⟩
    rw [(storeHubDailyTotal_effect db date_str user_id hub_code energy usage).2]

/-!
## C1
-/

/-- Whether one loop iteration completes without raising depends only on
the hub record and the snapshot's fetches, never on the database state:
a dormant hub is skipped, otherwise the body raises exactly when the
device fetch or the room fetch raises (store-level failures are absorbed
by the store layer's own handlers). -/
theorem processHub_isOk (S : RemoteSnapshot) (today : String) (db : DBState)
    (hub : HubDoc) :
    (processHub S today db hub).isOk =
      (decide (effUserId hub = "") ||
        ((S.devicesByHub (effHubCode hub)).isOk && (S.roomsByHub (effHubCode hub)).isOk)) := by
  unfold processHub
  by_cases hu : effUserId hub = ""
  · simp [hu, Except.isOk, Except.toBool]
  · rw [if_neg hu]
    cases hd : S.devicesByHub (effHubCode hub) with
    | error e => simp [hu, Except.isOk, Except.toBool]
    | ok devices =>
      cases hr : S.roomsByHub (effHubCode hub) with
      | error e => simp [hu, Except.isOk, Except.toBool]
      | ok rooms => simp [hu, Except.isOk, Except.toBool]

/-- The hub loop completes exactly when every iteration does. -/
theorem syncHubs_isOk (S : RemoteSnapshot) (today : String) :
    ∀ (hubs : List HubDoc) (db : DBState),
      (syncHubs S today hubs db).isOk =
        hubs.all (fun h =>
          decide (effUserId h = "") ||
            ((S.devicesByHub (effHubCode h)).isOk && (S.roomsByHub (effHubCode h)).isOk))
  | [], db => by simp [syncHubs, Except.isOk, Except.toBool]
  | h :: t, db => by
    rw [List.all_cons]
    cases hp : processHub S today db h with
    | ok db1 =>
      have := processHub_isOk S today db h
      rw [hp] at this
      simp only [syncHubs, hp]
      rw [syncHubs_isOk S today t db1, ← this]
      simp [Except.isOk, Except.toBool]
    | error db1 =>
      have := processHub_isOk S today db h
      rw [hp] at this
      simp only [syncHubs, hp]
      simp only [Except.isOk, Except.toBool] at this ⊢
      rw [← this]
      simp

/-- C1 amended: `fetch_and_store_all_data` never raises past its own
boundary, but its only exception handler is the single outer one: it
returns `True` exactly when the initial hub fetch and every non-dormant
hub's device and room fetches succeed.  A device or room fetch failure
inside the loop is not skipped — it aborts the pass (the remaining hubs
are not processed) and the call returns `False`, not only when the
initial fetch fails.  Per-device and hub-total store failures inside the
daily-energy step are the ones absorbed without aborting. -/
theorem c1_amended (S : RemoteSnapshot) (db : DBState) (today : String) :
    (fetchAndStoreAllData S db today).1 = allFetchesOk S := by
  unfold fetchAndStoreAllData allFetchesOk
  cases hs : S.hubsResult with
  | error e => rfl
  | ok hubs =>
    have hall := syncHubs_isOk S today hubs db
    cases hsync : syncHubs S today hubs db with
    | ok db1 =>
      rw [hsync] at hall
      dsimp only
      rw [hsync]
      dsimp only
      rw [← hall]
      rfl
    | error db1 =>
      rw [hsync] at hall
      dsimp only
      rw [hsync]
      dsimp only
      rw [← hall]
      rfl

/-- The first of two healthy hubs in the snapshot. -/
def c1Hub1 : HubDoc := ⟨some "h1", some "H1", some "u1", some "tenant"⟩

/-- The second hub, which the claim says should still be processed. -/
def c1Hub2 : HubDoc := ⟨some "h2", some "H2", some "u2", some "tenant"⟩

/-- A snapshot where only hub H1's device fetch raises; every other
fetch succeeds. -/
def c1Snapshot : RemoteSnapshot :=
  ⟨.ok [c1Hub1, c1Hub2],
   fun c => if c = "H1" then .error "device fetch failed" else .ok [],
   fun _ => .ok []⟩

/-- C1 counterexample: with two non-dormant hubs where only the first
hub's device fetch fails, the pass returns `False` (the claim says it
returns `False` only when the initial hub listing fails) and the second
hub is never processed — the hubs table ends with only the first hub's
row (the claim says the failure is skipped and the remaining hubs are
still processed). -/
theorem c1_counterexample :
    (fetchAndStoreAllData c1Snapshot emptyDB "2026-01-01").1 = false ∧
    (fetchAndStoreAllData c1Snapshot emptyDB "2026-01-01").2.hubs
      = [⟨"h1", "H1", "u1", "tenant"⟩] := by
  constructor
  · rfl
  · rfl

/-!
## C9
-/

/-- `LIMIT` after `ORDER BY`: the emitted prefix is no longer than the
limit. -/
theorem takeSort_length (l : List ConsumerRow) (n : Nat) :
    ((List.insertionSort consumerDesc l).take n).length ≤ n :=
  List.length_take_le n _

/-- `LIMIT` after `ORDER BY`: the emitted prefix is sorted descending. -/
theorem takeSort_pairwise (l : List ConsumerRow) (n : Nat) :
    ((List.insertionSort consumerDesc l).take n).Pairwise consumerDesc :=
  (List.sorted_insertionSort consumerDesc l).sublist (List.take_sublist n _)

/-- An `energy_daily` row with 1 kWh on device d1 of hub H1. -/
def rowTop : EnergyDailyRow := ⟨"2026-01-01", "u1", "H1", some "d1", "light", 1, 10⟩

/-- A store whose daily table holds 21 such rows (the table is
append-only across passes, so duplicates are realistic). -/
def dbTop : DBState :=
  ⟨["u1"], [⟨"hub-1", "H1", "u1", "tenant"⟩], [⟨"d1", "H1", "light", true⟩], [], ∅,
   List.replicate 21 rowTop, [], [], [], []⟩

/-- The wall clock used with `dbTop`. -/
def nowTop : NowCtx := ⟨"2026-01-01", 2026, 1, 1⟩

/-- C9: `get_top_consumers` returns at most `limit` rows, sorted by
`energy_kwh` descending, and every returned daily row is a device-level
(`device_id` not NULL) daily measurement row of that user joined with
the device's stored status and the hub's `home_type`; the `[1, 20]`
bound on `limit` lives only in the route declaration — the store layer
happily returns 21 rows for `limit = 21`, which the route would have
rejected. -/
theorem c9_top_consumers :
    (∀ (db : DBState) (now : NowCtx) (user_id time_period : String) (limit : Nat),
      (getTopConsumers db now user_id time_period limit).length ≤ limit) ∧
    (∀ (db : DBState) (now : NowCtx) (user_id time_period : String) (limit : Nat),
      (getTopConsumers db now user_id time_period limit).Pairwise
        (fun a b => b.energy_kwh ≤ a.energy_kwh)) ∧
    (∀ (db : DBState) (now : NowCtx) (user_id : String) (limit : Nat) (r : ConsumerRow),
      r ∈ getTopConsumers db now user_id "daily" limit →
        r ∈ joinDailyConsumers db user_id now.date) ∧
    (∀ (db : DBState) (uid date : String) (r : ConsumerRow),
      r ∈ joinDailyConsumers db uid date →
        ∃ e ∈ db.energy_daily, e.user_id = uid ∧ e.date = date ∧
          e.device_id = some r.device_id ∧ r.energy_kwh = e.energy_kwh ∧
          (∃ d ∈ db.devices, d.device_id = r.device_id ∧ r.status = d.status) ∧
          (∃ hb ∈ db.hubs, hb.hub_code = r.hub_code ∧ r.home_type = hb.home_type)) ∧
    (getTopConsumers dbTop nowTop "u1" "daily" 21).length = 21 ∧
    topConsumersRouteAccepts 21 = false := by
  refine ⟨?_, ?_, ?_, ?_, ?_, ?_⟩
  · intro db now user_id time_period limit
    unfold getTopConsumers
    by_cases h1 : time_period = "daily"
    · simp only [if_pos h1]; exact takeSort_length _ _
    simp only [if_neg h1]
    by_cases h2 : time_period = "weekly"
    · simp only [if_pos h2]; exact takeSort_length _ _
    simp only [if_neg h2]
    by_cases h3 : time_period = "monthly"
    · simp only [if_pos h3]; exact takeSort_length _ _
    simp only [if_neg h3]
    by_cases h4 : time_period = "yearly"
    · simp only [if_pos h4]; exact takeSort_length _ _
    simp only [if_neg h4]
    simp
  · intro db now user_id time_period limit
    unfold getTopConsumers
    by_cases h1 : time_period = "daily"
    · simp only [if_pos h1]; exact takeSort_pairwise _ _
    simp only [if_neg h1]
    by_cases h2 : time_period = "weekly"
    · simp only [if_pos h2]; exact takeSort_pairwise _ _
    simp only [if_neg h2]
    by_cases h3 : time_period = "monthly"
    · simp only [if_pos h3]; exact takeSort_pairwise _ _
    simp only [if_neg h3]
    by_cases h4 : time_period = "yearly"
    · simp only [if_pos h4]; exact takeSort_pairwise _ _
    simp only [if_neg h4]
    simp
  · intro db now user_id limit r hr
    unfold getTopConsumers at hr
    simp only [if_pos rfl] at hr
    have h1 := List.mem_of_mem_take hr
    exact (List.perm_insertionSort consumerDesc _).mem_iff.mp h1
  · intro db uid date r hr
    unfold joinDailyConsumers at hr
    obtain ⟨e, he, heq⟩ := List.mem_filterMap.mp hr
    obtain ⟨hemem, hcond⟩ := List.mem_filter.mp he
    simp only [Bool.and_eq_true, decide_eq_true_eq] at hcond
    cases hdid : e.device_id with
    | none => rw [hdid] at heq; simp at heq
    | some did =>
      rw [hdid] at heq
      dsimp only at heq
      cases hfd : db.devices.find? (fun d => decide (d.device_id = did)) with
      | none => rw [hfd] at heq; simp at heq
      | some d =>
        rw [hfd] at heq
        cases hfh : db.hubs.find? (fun h => decide (h.hub_code = e.hub_code)) with
        | none => rw [hfh] at heq; simp at heq
        | some hb =>
          rw [hfh] at heq
          simp only [Option.some.injEq] at heq
          have hd1 : d ∈ db.devices := List.mem_of_find?_eq_some hfd
          have hd2 : d.device_id = did := by
            have := List.find?_some hfd
            simpa using this
          have hh1 : hb ∈ db.hubs := List.mem_of_find?_eq_some hfh
          have hh2 : hb.hub_code = e.hub_code := by
            have := List.find?_some hfh
            simpa using this
          refine ⟨e, hemem, hcond.1.1, hcond.1.2, ?_⟩
          rw [← heq]
          exact ⟨by rw [hdid], rfl,
            ⟨d, hd1, hd2, rfl⟩, ⟨hb, hh1, hh2, rfl⟩⟩
  · have hjoin : (joinDailyConsumers dbTop "u1" nowTop.date).length = 21 := by decide
    unfold getTopConsumers
    rw [if_pos rfl, List.length_take,
      (List.perm_insertionSort consumerDesc _).length_eq, hjoin]
    norm_num
  · rfl

/-!
## C7
-/

/-- A stored hub-total daily row for hub HUB1 (0.9 kWh). -/
def hubTotalRow7 : EnergyDailyRow := ⟨"2026-01-01", "u1", "HUB1", none, "hub_total", 0.9, 24⟩

/-- A stored device-level daily row for device dev-1 (0.6 kWh). -/
def devRow7 : EnergyDailyRow := ⟨"2026-01-01", "u1", "HUB1", some "dev-1", "light", 0.6, 10⟩

/-- A store that really holds daily measurements for hub HUB1. -/
def db7 : DBState :=
  ⟨["u1"], [⟨"hub-1", "HUB1", "u1", "tenant"⟩], [⟨"dev-1", "HUB1", "light", true⟩], [], ∅,
   [hubTotalRow7, devRow7], [], [], [], []⟩

/-- HUB1's one room, containing dev-1. -/
def rooms7 : List FsRoom := [⟨some "r1", some "Kitchen", [.strId "dev-1"], ["light"]⟩]

/-- C7, recorded as a code bug: with stored daily rows present (hub total
0.9 kWh), the live endpoint still returns a daily section with total 0
and no rooms — `db.get_daily_energy_by_hub` does not exist (its
definition is commented out), the `AttributeError` is swallowed and
`daily_data` stays `None` — while weekly/monthly/yearly rooms are,
as the claim correctly says, emitted with energy exactly 0.  The last
two conjuncts show the claimed (and clearly intended) behaviour: the
commented-out accessor does find total 0.9 and the device row, and
wiring it back in populates the daily section from the stored rows. -/
theorem c7_code_bug :
    getHubRealEnergyData true "tenant" rooms7 db7 "HUB1" "2026-01-01"
      = .ok ⟨0, [], [("Kitchen", ⟨0, 1⟩)], [("Kitchen", ⟨0, 1⟩)], [("Kitchen", ⟨0, 1⟩)]⟩ ∧
    getDailyEnergyByHub db7 "HUB1" "2026-01-01"
      = ⟨0.9, [("dev-1", ⟨"light", 0.6, 10⟩)]⟩ ∧
    buildRealHubView (some (getDailyEnergyByHub db7 "HUB1" "2026-01-01")) rooms7
      = .ok ⟨0.9, [("Kitchen", ⟨0.6, 1⟩)], [("Kitchen", ⟨0, 1⟩)], [("Kitchen", ⟨0, 1⟩)],
            [("Kitchen", ⟨0, 1⟩)]⟩ := by
  have hlt : strLower "tenant" = "tenant" := by decide
  have hdd : getDailyEnergyByHub db7 "HUB1" "2026-01-01"
      = ⟨0.9, [("dev-1", ⟨"light", 0.6, 10⟩)]⟩ := by
    simp [getDailyEnergyByHub, db7, hubTotalRow7, devRow7, upsertBy]
  refine ⟨?_, hdd, ?_⟩
  · simp [getHubRealEnergyData, hlt, buildRealHubView, realOtherRooms, realDailyRoomBlock,
      realEnergyDailyLookup, rooms7, fsRoomName, apiExtractIds]
  · rw [hdd]
    simp [buildRealHubView, realOtherRooms, realDailyRoomBlock, rooms7, fsRoomName,
      apiExtractIds, upsertBy]

/-!
## C2
-/

/-- The device documents a hub's fetch returns (empty when the fetch is
not `.ok`, which well-formedness rules out for processed hubs). -/
def devsOf (S : RemoteSnapshot) (h : HubDoc) : List DeviceDoc :=
  match S.devicesByHub (effHubCode h) with
  | .ok l => l
  | .error _ => []

/-- The room documents a hub's fetch returns. -/
def roomsOf (S : RemoteSnapshot) (h : HubDoc) : List RoomDoc :=
  match S.roomsByHub (effHubCode h) with
  | .ok l => l
  | .error _ => []

/-- The `hubs` row the sync pass writes for a hub document. -/
def hubRowOf (h : HubDoc) : HubRow :=
  ⟨effHubId h, effHubCode h, effUserId h, effHomeType h⟩

/-- The `devices` rows the sync pass writes for a hub document. -/
def deviceRowsOf (S : RemoteSnapshot) (h : HubDoc) : List DeviceRow :=
  (devsOf S h).map (fun d => ⟨effDeviceId d, effHubCode h, effDeviceType d, d.isOn⟩)

/-- The effective room id of a room document. -/
def roomIdOf (r : RoomDoc) : String := r.roomId.getD "unknown"

/-- The `rooms` rows the sync pass writes for a hub document. -/
def roomRowsOf (S : RemoteSnapshot) (h : HubDoc) : List RoomRow :=
  (roomsOf S h).map (fun r =>
    ⟨roomIdOf r, r.roomName.getD (roomIdOf r), effHubCode h,
     (extractDeviceIds r.devices).length⟩)

/-- The `room_devices` pairs the sync pass writes for a hub document. -/
def roomPairsOf (S : RemoteSnapshot) (h : HubDoc) : List (String × String) :=
  (roomsOf S h).flatMap (fun r =>
    (extractDeviceIds r.devices).map (fun d => (roomIdOf r, d)))

/-- The `energy_daily` rows one pass appends for a hub document (one per
device plus the hub total). -/
def energyRowsOf (S : RemoteSnapshot) (today : String) (h : HubDoc) :
    List EnergyDailyRow :=
  (devsOf S h).map (fun d =>
    ⟨today, effUserId h, effHubCode h, some (effDeviceId d), effDeviceType d,
     (deviceEnergyHours d).1, (deviceEnergyHours d).2⟩) ++
  [⟨today, effUserId h, effHubCode h, none, "hub_total", hubDailyTotal (devsOf S h), 24⟩]

/-- First-occurrence deduplication, as `add_user` builds the `users`
table. -/
def dedupAppend (l : List String) : List String :=
  l.foldl (fun acc u => if u ∈ acc then acc else acc ++ [u]) []

/-- The database state one completed pass over the processed hub list
`P` builds from an empty store. -/
def buildState (S : RemoteSnapshot) (today : String) (P : List HubDoc) : DBState :=
  ⟨dedupAppend (P.map effUserId),
   P.map hubRowOf,
   P.flatMap (deviceRowsOf S),
   P.flatMap (roomRowsOf S),
   (P.flatMap (roomPairsOf S)).toFinset,
   P.flatMap (energyRowsOf S today),
   [], [], [],
   P.map (fun h => (effHubCode h, ⟨effUserId h, hubDailyTotal (devsOf S h), 0, 0, 0, 0⟩))⟩

/-- The non-dormant hubs of a hub list, in order. -/
def processedOf (hl : List HubDoc) : List HubDoc :=
  hl.filter (fun h => decide (effUserId h ≠ ""))

/-- Well-formedness of a snapshot, strong enough for the idempotence
statement: the hub fetch succeeds; the processed (non-dormant) hubs have
present `hubCode`s, pairwise-distinct ids and codes, succeeding device
and room fetches, globally distinct device ids and room ids, and room
membership lists drawn from the same hub's devices. -/
def wellFormedSync (S : RemoteSnapshot) : Bool :=
  match S.hubsResult with
  | .error _ => false
  | .ok hl =>
    let P := processedOf hl
    decide ((P.map effHubId).Nodup) &&
    decide ((P.map effHubCode).Nodup) &&
    P.all (fun h => h.hubCode.isSome &&
      (S.devicesByHub (effHubCode h)).isOk && (S.roomsByHub (effHubCode h)).isOk) &&
    decide ((P.flatMap (fun h => (devsOf S h).map effDeviceId)).Nodup) &&
    decide ((P.flatMap (fun h => (roomsOf S h).map roomIdOf)).Nodup) &&
    P.all (fun h => (roomsOf S h).all (fun r =>
      (extractDeviceIds r.devices).all (fun i =>
        decide (i ∈ (devsOf S h).map effDeviceId))))

/-- A one-hub, one-device snapshot. -/
def c2Hub : HubDoc := ⟨some "h1", some "H1", some "u1", some "tenant"⟩

/-- The hub's one device. -/
def c2Dev : DeviceDoc := ⟨some "d1", some "light", true⟩

/-- The snapshot for the C2 counterexample. -/
def c2Snapshot : RemoteSnapshot :=
  ⟨.ok [c2Hub], fun _ => .ok [c2Dev], fun _ => .ok []⟩

/-- C2 counterexample: the daily measurement table's row count is not
stable across two immediately consecutive passes over the same frozen
snapshot and date — the first pass inserts 2 rows (device + hub total),
the second pass inserts 2 more, because `energy_daily` has only a
surrogate autoincrement key, so `INSERT OR REPLACE` into it never
replaces.  The hubs table, by contrast, stays at one row. -/
theorem c2_counterexample :
    ((fetchAndStoreAllData c2Snapshot emptyDB "2026-01-01").2.energy_daily).length = 2 ∧
    ((fetchAndStoreAllData c2Snapshot
        (fetchAndStoreAllData c2Snapshot emptyDB "2026-01-01").2
        "2026-01-01").2.energy_daily).length = 4 ∧
    ((fetchAndStoreAllData c2Snapshot
        (fetchAndStoreAllData c2Snapshot emptyDB "2026-01-01").2
        "2026-01-01").2.hubs).length = 1 := by
  refine ⟨rfl, rfl, rfl⟩

/-- Mapping a function that fixes every element is the identity. -/
theorem map_self {α : Type} (l : List α) (f : α → α) (h : ∀ x ∈ l, f x = x) :
    l.map f = l :=
  (List.map_congr_left h).trans l.map_id

/-- One more element through the `add_user` fold. -/
theorem dedupAppend_append_one (l : List String) (a : String) :
    dedupAppend (l ++ [a]) =
      if a ∈ dedupAppend l then dedupAppend l else dedupAppend l ++ [a] := by
  unfold dedupAppend
  rw [List.foldl_append]
  rfl

/-- Membership is preserved by the deduplication fold. -/
theorem mem_dedupAppend (l : List String) (a : String) (h : a ∈ l) :
    a ∈ dedupAppend l := by
  induction l using List.reverseRecOn with
  | nil => simp at h
  | append_singleton t b ih =>
    rw [dedupAppend_append_one]
    rcases List.mem_append.mp h with ht | hb
    · by_cases hm : b ∈ dedupAppend t <;> simp [hm, ih ht]
    · simp at hb
      subst hb
      by_cases hm : a ∈ dedupAppend t <;> simp [hm]

/-- `add_user` on a user already present returns the store unchanged. -/
theorem addUser_present (db : DBState) (u : String) (h : u ∈ db.users) :
    addUser db u = (true, db) := by
  simp [addUser, h]

/-- The ensured user is in the table afterwards. -/
theorem addUser_mem (db : DBState) (u : String) : u ∈ (addUser db u).2.users := by
  unfold addUser
  by_cases h : u ∈ db.users <;> simp [h]

/-- `upsertBy` on a fresh key appends. -/
theorem upsertBy_fresh {β : Type} (s : List (String × β)) (k : String) (v : β)
    (h : ∀ p ∈ s, p.1 ≠ k) : upsertBy s k v = s ++ [(k, v)] := by
  unfold upsertBy
  rw [if_neg]
  simp only [List.any_eq_true, decide_eq_true_eq, not_exists]
  intro p hp
  exact h p hp.1 hp.2

/-- `upsertBy` that rewrites the present binding with the same value is
the identity. -/
theorem upsertBy_same {β : Type} (s : List (String × β)) (k : String) (v : β)
    (hmem : (k, v) ∈ s) (huniq : ∀ p ∈ s, p.1 = k → p = (k, v)) :
    upsertBy s k v = s := by
  unfold upsertBy
  rw [if_pos]
  · apply map_self
    intro p hp
    by_cases hk : p.1 = k
    · rw [if_pos hk, huniq p hp hk]
    · rw [if_neg hk]
  · exact List.any_eq_true.mpr ⟨(k, v), hmem, by simp⟩

/-- For a processed hub (non-empty `userId`) the user id read inside the
energy step agrees with the loop's. -/
theorem calcUserId_eq_eff (h : HubDoc) (hne : effUserId h ≠ "") :
    calcUserId h = effUserId h := by
  unfold calcUserId effUserId at *
  cases hu : h.userId with
  | none => rw [hu] at hne; simp at hne
  | some u =>
    rw [hu] at hne
    simp only [Option.getD_some] at hne ⊢
    rw [if_neg hne]

/-- When the document carries a `hubCode`, the energy step's hub code
agrees with the loop's. -/
theorem calcHubCode_eq_eff (h : HubDoc) (hc : h.hubCode.isSome) :
    calcHubCode h = effHubCode h := by
  unfold calcHubCode effHubCode
  cases hu : h.hubCode with
  | none => rw [hu] at hc; simp at hc
  | some c => simp

/-- The device loop of `processHub` over fresh device ids: every
`add_device` takes the INSERT path and appends its row. -/
theorem foldAddDevice_fresh (code : String) :
    ∀ (ds : List DeviceDoc) (db : DBState),
      code ∈ hubCodes db →
      (∀ d ∈ ds, effDeviceId d ∉ deviceIds db) →
      ((ds.map effDeviceId).Nodup) →
      ds.foldl (fun acc d => (addDevice acc (effDeviceId d) code (effDeviceType d) d.isOn).2) db
        = { db with devices := db.devices ++ ds.map (fun d =>
            ⟨effDeviceId d, code, effDeviceType d, d.isOn⟩) }
  | [], db, _, _, _ => by simp
  | d :: ds, db, hcode, hfresh, hnod => by
    have hne : ¬ db.devices.any (fun x => decide (x.device_id = effDeviceId d)) = true := by
      simp only [List.any_eq_true, decide_eq_true_eq, not_exists]
      intro x hx
      exact (hfresh d (by simp)) (List.mem_map.mpr ⟨x, hx.1, hx.2⟩)
    have hstep : (addDevice db (effDeviceId d) code (effDeviceType d) d.isOn).2
        = { db with devices := db.devices ++ [⟨effDeviceId d, code, effDeviceType d, d.isOn⟩] } := by
      unfold addDevice
      rw [if_neg hne, if_pos hcode]
    have hnodtail : ((ds.map effDeviceId).Nodup) := (List.nodup_cons.mp (by simpa using hnod)).2
    have hheadfresh : effDeviceId d ∉ ds.map effDeviceId :=
      (List.nodup_cons.mp (by simpa using hnod)).1
    have ih := foldAddDevice_fresh code ds
      { db with devices := db.devices ++ [⟨effDeviceId d, code, effDeviceType d, d.isOn⟩] }
      hcode
      (by
        intro x hx
        simp only [deviceIds, List.map_append, List.mem_append, List.map_cons, List.map_nil]
        rintro (hin | hnew)
        · exact (hfresh x (by simp [hx])) hin
        · simp at hnew
          exact hheadfresh (by rw [← hnew]; exact List.mem_map.mpr ⟨x, hx, rfl⟩))
      hnodtail
    rw [List.foldl_cons, hstep, ih]
    simp

/-- The device loop of `processHub` when every row is already present
with exactly the values being written: every `add_device` takes the
UPDATE path and rewrites the row in place with the same values. -/
theorem foldAddDevice_idem (code : String) :
    ∀ (ds : List DeviceDoc) (db : DBState),
      code ∈ hubCodes db →
      (∀ d ∈ ds, (⟨effDeviceId d, code, effDeviceType d, d.isOn⟩ : DeviceRow) ∈ db.devices) →
      (∀ d ∈ ds, ∀ row ∈ db.devices, row.device_id = effDeviceId d →
        row = ⟨effDeviceId d, code, effDeviceType d, d.isOn⟩) →
      ds.foldl (fun acc d => (addDevice acc (effDeviceId d) code (effDeviceType d) d.isOn).2) db
        = db
  | [], db, _, _, _ => rfl
  | d :: ds, db, hcode, hmem, huniq => by
    have hex : db.devices.any (fun x => decide (x.device_id = effDeviceId d)) = true :=
      List.any_eq_true.mpr ⟨_, hmem d (by simp), by simp⟩
    have hmap : db.devices.map (fun x =>
        if x.device_id = effDeviceId d then ⟨effDeviceId d, code, effDeviceType d, d.isOn⟩ else x)
        = db.devices := by
      apply map_self
      intro x hx
      by_cases hid : x.device_id = effDeviceId d
      · rw [if_pos hid, ← huniq d (by simp) x hx hid]
      · rw [if_neg hid]
    have hstep : (addDevice db (effDeviceId d) code (effDeviceType d) d.isOn).2 = db := by
      unfold addDevice
      rw [if_pos hex, if_pos hcode]
      dsimp only
      rw [hmap]
    rw [List.foldl_cons, hstep]
    exact foldAddDevice_idem code ds db hcode
      (fun x hx => hmem x (by simp [hx]))
      (fun x hx => huniq x (by simp [hx]))

/-- A single `add_room` with a fresh room id: the room row is appended
and the room's pairs are unioned in (no prior pairs of that room
exist). -/
theorem addRoom_fresh_step (db : DBState) (r : RoomDoc) (code : String)
    (hcode : code ∈ hubCodes db)
    (hsub : ∀ i ∈ extractDeviceIds r.devices, i ∈ deviceIds db)
    (hfresh : roomIdOf r ∉ db.rooms.map (fun x => x.room_id))
    (hpair : ∀ p ∈ db.room_devices, p.1 ≠ roomIdOf r) :
    (addRoom db (r.roomId.getD "unknown") (r.roomName.getD (r.roomId.getD "unknown")) code
      (extractDeviceIds r.devices)).2
    = { db with
        rooms := db.rooms ++ [⟨roomIdOf r, r.roomName.getD (roomIdOf r), code,
          (extractDeviceIds r.devices).length⟩],
        room_devices := db.room_devices ∪ ((extractDeviceIds r.devices).map (fun d =>
          (roomIdOf r, d))).toFinset } := by
  unfold roomIdOf at *
  unfold addRoom
  rw [if_neg (not_not_intro hcode)]
  have hany : ¬ db.rooms.any (fun x => decide (x.room_id = r.roomId.getD "unknown")) = true := by
    simp only [List.any_eq_true, decide_eq_true_eq, not_exists]
    intro x hx
    exact hfresh (List.mem_map.mpr ⟨x, hx.1, hx.2⟩)
  unfold upsertRoomRow
  rw [if_neg hany]
  by_cases hids : extractDeviceIds r.devices = []
  · rw [if_pos hids, hids]
    simp
  · rw [if_neg hids]
    have hall : (extractDeviceIds r.devices).all (fun d => decide (d ∈ deviceIds db)) = true := by
      rw [List.all_eq_true]
      intro i hi
      simpa using hsub i hi
    rw [if_pos hall]
    have hfilter : db.room_devices.filter (fun p => decide (p.1 ≠ r.roomId.getD "unknown"))
        = db.room_devices :=
      Finset.filter_true_of_mem (fun p hp => by simpa using hpair p hp)
    rw [hfilter]

/-- The room loop of `processHub` over fresh room ids. -/
theorem foldAddRoom_fresh (code : String) :
    ∀ (rs : List RoomDoc) (db : DBState),
      code ∈ hubCodes db →
      (∀ r ∈ rs, ∀ i ∈ extractDeviceIds r.devices, i ∈ deviceIds db) →
      (∀ r ∈ rs, roomIdOf r ∉ db.rooms.map (fun x => x.room_id)) →
      ((rs.map roomIdOf).Nodup) →
      (∀ r ∈ rs, ∀ p ∈ db.room_devices, p.1 ≠ roomIdOf r) →
      rs.foldl (fun acc r =>
        (addRoom acc (r.roomId.getD "unknown") (r.roomName.getD (r.roomId.getD "unknown")) code
          (extractDeviceIds r.devices)).2) db
      = { db with
          rooms := db.rooms ++ rs.map (fun r =>
            ⟨roomIdOf r, r.roomName.getD (roomIdOf r), code, (extractDeviceIds r.devices).length⟩),
          room_devices := db.room_devices ∪ (rs.flatMap (fun r =>
            (extractDeviceIds r.devices).map (fun d => (roomIdOf r, d)))).toFinset }
  | [], db, _, _, _, _, _ => by simp
  | r :: rs, db, hcode, hsub, hfresh, hnod, hpair => by
    have hstep := addRoom_fresh_step db r code hcode (hsub r (by simp))
      (hfresh r (by simp)) (hpair r (by simp))
    have hnodtail : ((rs.map roomIdOf).Nodup) := (List.nodup_cons.mp (by simpa using hnod)).2
    have hheadfresh : roomIdOf r ∉ rs.map roomIdOf :=
      (List.nodup_cons.mp (by simpa using hnod)).1
    have ih := foldAddRoom_fresh code rs
      { db with
        rooms := db.rooms ++ [⟨roomIdOf r, r.roomName.getD (roomIdOf r), code,
          (extractDeviceIds r.devices).length⟩],
        room_devices := db.room_devices ∪ ((extractDeviceIds r.devices).map (fun d =>
          (roomIdOf r, d))).toFinset }
      hcode
      (fun x hx i hi => hsub x (by simp [hx]) i hi)
      (by
        intro x hx
        simp only [List.map_append, List.mem_append, List.map_cons, List.map_nil]
        rintro (hin | hnew)
        · exact (hfresh x (by simp [hx])) hin
        · simp at hnew
          exact hheadfresh (by rw [← hnew]; exact List.mem_map.mpr ⟨x, hx, rfl⟩))
      hnodtail
      (by
        intro x hx p hp
        rcases Finset.mem_union.mp hp with hold | hnewp
        · exact hpair x (by simp [hx]) p hold
        · rcases List.mem_map.mp (List.mem_toFinset.mp hnewp) with ⟨i, hi, hpi⟩
          rw [← hpi]
          intro hcontr
          simp only at hcontr
          exact hheadfresh (by rw [hcontr]; exact List.mem_map.mpr ⟨x, hx, rfl⟩))
    rw [List.foldl_cons, hstep, ih]
    simp [List.toFinset_append, Finset.union_assoc]

/-- A single `add_room` whose row and pairs are already stored exactly
as they will be rewritten: the call leaves the store unchanged. -/
theorem addRoom_idem_step (db : DBState) (r : RoomDoc) (code : String)
    (hcode : code ∈ hubCodes db)
    (hsub : ∀ i ∈ extractDeviceIds r.devices, i ∈ deviceIds db)
    (hmem : (⟨roomIdOf r, r.roomName.getD (roomIdOf r), code,
      (extractDeviceIds r.devices).length⟩ : RoomRow) ∈ db.rooms)
    (huniq : ∀ x ∈ db.rooms, x.room_id = roomIdOf r →
      x = ⟨roomIdOf r, r.roomName.getD (roomIdOf r), code, (extractDeviceIds r.devices).length⟩)
    (hpin : ∀ p ∈ ((extractDeviceIds r.devices).map (fun d => (roomIdOf r, d))).toFinset,
      p ∈ db.room_devices)
    (hpchar : ∀ p ∈ db.room_devices, p.1 = roomIdOf r →
      p ∈ ((extractDeviceIds r.devices).map (fun d => (roomIdOf r, d))).toFinset) :
    (addRoom db (r.roomId.getD "unknown") (r.roomName.getD (r.roomId.getD "unknown")) code
      (extractDeviceIds r.devices)).2 = db := by
  unfold roomIdOf at *
  unfold addRoom
  rw [if_neg (not_not_intro hcode)]
  have hany : db.rooms.any (fun x => decide (x.room_id = r.roomId.getD "unknown")) = true :=
    List.any_eq_true.mpr ⟨_, hmem, by simp⟩
  have hrooms : upsertRoomRow db.rooms
      ⟨r.roomId.getD "unknown", r.roomName.getD (r.roomId.getD "unknown"), code,
        (extractDeviceIds r.devices).length⟩ = db.rooms := by
    unfold upsertRoomRow
    rw [if_pos hany]
    apply map_self
    intro x hx
    by_cases hid : x.room_id = r.roomId.getD "unknown"
    · rw [if_pos hid, ← huniq x hx hid]
    · rw [if_neg hid]
  rw [hrooms]
  by_cases hids : extractDeviceIds r.devices = []
  · rw [if_pos hids]
  · rw [if_neg hids]
    have hall : (extractDeviceIds r.devices).all (fun d => decide (d ∈ deviceIds db)) = true := by
      rw [List.all_eq_true]
      intro i hi
      simpa using hsub i hi
    rw [if_pos hall]
    have hrd : (db.room_devices.filter (fun p => decide (p.1 ≠ r.roomId.getD "unknown"))) ∪
        ((extractDeviceIds r.devices).map (fun d => (r.roomId.getD "unknown", d))).toFinset
        = db.room_devices := by
      ext p
      constructor
      · intro hp
        rcases Finset.mem_union.mp hp with hf | hn
        · exact (Finset.mem_filter.mp hf).1
        · exact hpin p hn
      · intro hp
        by_cases hid : p.1 = r.roomId.getD "unknown"
        · exact Finset.mem_union.mpr (Or.inr (hpchar p hp hid))
        · exact Finset.mem_union.mpr (Or.inl (Finset.mem_filter.mpr ⟨hp, by simpa using hid⟩))
    rw [hrd]

/-- The room loop of `processHub` when every room is already stored
exactly as it will be rewritten. -/
theorem foldAddRoom_idem (code : String) :
    ∀ (rs : List RoomDoc) (db : DBState),
      code ∈ hubCodes db →
      (∀ r ∈ rs, ∀ i ∈ extractDeviceIds r.devices, i ∈ deviceIds db) →
      (∀ r ∈ rs, (⟨roomIdOf r, r.roomName.getD (roomIdOf r), code,
        (extractDeviceIds r.devices).length⟩ : RoomRow) ∈ db.rooms) →
      (∀ r ∈ rs, ∀ x ∈ db.rooms, x.room_id = roomIdOf r →
        x = ⟨roomIdOf r, r.roomName.getD (roomIdOf r), code,
          (extractDeviceIds r.devices).length⟩) →
      (∀ r ∈ rs, ∀ p ∈ ((extractDeviceIds r.devices).map (fun d =>
        (roomIdOf r, d))).toFinset, p ∈ db.room_devices) →
      (∀ r ∈ rs, ∀ p ∈ db.room_devices, p.1 = roomIdOf r →
        p ∈ ((extractDeviceIds r.devices).map (fun d => (roomIdOf r, d))).toFinset) →
      rs.foldl (fun acc r =>
        (addRoom acc (r.roomId.getD "unknown") (r.roomName.getD (r.roomId.getD "unknown")) code
          (extractDeviceIds r.devices)).2) db
      = db
  | [], db, _, _, _, _, _, _ => rfl
  | r :: rs, db, hcode, hsub, hmem, huniq, hpin, hpchar => by
    have hstep := addRoom_idem_step db r code hcode (hsub r (by simp)) (hmem r (by simp))
      (huniq r (by simp)) (hpin r (by simp)) (hpchar r (by simp))
    rw [List.foldl_cons, hstep]
    exact foldAddRoom_idem code rs db hcode
      (fun x hx => hsub x (by simp [hx]))
      (fun x hx => hmem x (by simp [hx]))
      (fun x hx => huniq x (by simp [hx]))
      (fun x hx => hpin x (by simp [hx]))
      (fun x hx => hpchar x (by simp [hx]))

/-- A succeeding device fetch returns exactly `devsOf`. -/
theorem devsOf_ok (S : RemoteSnapshot) (h : HubDoc)
    (hok : (S.devicesByHub (effHubCode h)).isOk) :
    S.devicesByHub (effHubCode h) = .ok (devsOf S h) := by
  unfold devsOf
  cases hd : S.devicesByHub (effHubCode h) with
  | ok l => rfl
  | error e => rw [hd] at hok; simp [Except.isOk, Except.toBool] at hok

/-- A succeeding room fetch returns exactly `roomsOf`. -/
theorem roomsOf_ok (S : RemoteSnapshot) (h : HubDoc)
    (hok : (S.roomsByHub (effHubCode h)).isOk) :
    S.roomsByHub (effHubCode h) = .ok (roomsOf S h) := by
  unfold roomsOf
  cases hd : S.roomsByHub (effHubCode h) with
  | ok l => rfl
  | error e => rw [hd] at hok; simp [Except.isOk, Except.toBool] at hok

/-- `add_hub` over a hub whose id and code are both fresh: the user is
ensured and the hub row is appended. -/
theorem addHub_fresh (db : DBState) (hub_id hub_code user_id home_type : String)
    (hne : user_id ≠ "")
    (hid : ∀ x ∈ db.hubs, x.hub_id ≠ hub_id)
    (hcd : ∀ x ∈ db.hubs, x.hub_code ≠ hub_code) :
    (addHub db hub_id hub_code user_id home_type).2
      = { (addUser db user_id).2 with
          hubs := db.hubs ++ [⟨hub_id, hub_code, user_id, home_type⟩] } := by
  have hu : (addUser db user_id).2.hubs = db.hubs := (addUser_frame db user_id).1
  have ha1 : ¬ ((addUser db user_id).2.hubs.any (fun x => decide (x.hub_id = hub_id))) = true := by
    rw [hu]
    simp only [List.any_eq_true, decide_eq_true_eq, not_exists]
    intro x hx
    exact hid x hx.1 hx.2
  have ha2 : ¬ ((addUser db user_id).2.hubs.any (fun x => decide (x.hub_code = hub_code))) = true := by
    rw [hu]
    simp only [List.any_eq_true, decide_eq_true_eq, not_exists]
    intro x hx
    exact hcd x hx.1 hx.2
  have hmem : user_id ∈ (addUser db user_id).2.users := addUser_mem db user_id
  unfold addHub addHubAttempt
  simp only [if_neg hne]
  rw [if_neg ha1, if_neg ha2, if_neg (by simp [hmem] : ¬ (true && decide (user_id ∉ (addUser db user_id).2.users)) = true)]
  dsimp only
  rw [hu]

/-- `add_hub` over a hub whose row is already stored exactly as it will
be rewritten (and whose id and code determine the row uniquely): the
UPDATE path rewrites the row in place with the same values, leaving the
store unchanged. -/
theorem addHub_idem (db : DBState) (hub_id hub_code user_id home_type : String)
    (hne : user_id ≠ "")
    (humem : user_id ∈ db.users)
    (hmem : (⟨hub_id, hub_code, user_id, home_type⟩ : HubRow) ∈ db.hubs)
    (huniq : ∀ x ∈ db.hubs, x.hub_id = hub_id →
      x = ⟨hub_id, hub_code, user_id, home_type⟩)
    (huniqc : ∀ x ∈ db.hubs, x.hub_code = hub_code →
      x = ⟨hub_id, hub_code, user_id, home_type⟩) :
    (addHub db hub_id hub_code user_id home_type).2 = db := by
  have hd1 : addUser db user_id = (true, db) := addUser_present db user_id humem
  have hex : db.hubs.any (fun x => decide (x.hub_id = hub_id)) = true :=
    List.any_eq_true.mpr ⟨_, hmem, by simp⟩
  have hnov : ¬ hubUniqueViolation db hub_id hub_code = true := by
    unfold hubUniqueViolation
    simp only [List.any_eq_true, Bool.and_eq_true, decide_eq_true_eq, not_exists]
    intro x hx
    have := huniqc x hx.1 hx.2.2
    rw [this] at hx
    exact hx.2.1 rfl
  have hmap : db.hubs.map (fun x =>
      if x.hub_id = hub_id then ⟨hub_id, hub_code, user_id, home_type⟩ else x) = db.hubs := by
    apply map_self
    intro x hx
    by_cases hid : x.hub_id = hub_id
    · rw [if_pos hid, ← huniq x hx hid]
    · rw [if_neg hid]
  unfold addHub addHubAttempt
  simp only [if_neg hne, hd1]
  rw [if_pos hex, if_neg hnov]
  dsimp only
  rw [hmap]

/-- The hub codes of a built state are the processed hubs' codes. -/
theorem hubCodes_buildState (S : RemoteSnapshot) (today : String) (P : List HubDoc) :
    hubCodes (buildState S today P) = P.map effHubCode := by
  show (P.map hubRowOf).map (fun h => h.hub_code) = P.map effHubCode
  rw [List.map_map]
  rfl

/-- The device ids of a built state are the processed hubs' device ids. -/
theorem deviceIds_buildState (S : RemoteSnapshot) (today : String) (P : List HubDoc) :
    deviceIds (buildState S today P) =
      P.flatMap (fun g => (devsOf S g).map effDeviceId) := by
  show (P.flatMap (deviceRowsOf S)).map (fun d => d.device_id) = _
  rw [List.map_flatMap]
  simp only [deviceRowsOf, List.map_map]
  rfl

/-- The room ids of a built state are the processed hubs' room ids. -/
theorem roomIds_buildState (S : RemoteSnapshot) (today : String) (P : List HubDoc) :
    (buildState S today P).rooms.map (fun x => x.room_id) =
      P.flatMap (fun g => (roomsOf S g).map roomIdOf) := by
  show (P.flatMap (roomRowsOf S)).map (fun x => x.room_id) = _
  rw [List.map_flatMap]
  simp only [roomRowsOf, List.map_map]
  rfl

/-- In a duplicate-free flattened list, a value pins down the outer
element that contributed it. -/
theorem flatMap_nodup_unique {α β : Type} (F : List α) (f : α → List β)
    (hnod : (F.flatMap f).Nodup) :
    ∀ g ∈ F, ∀ h ∈ F, ∀ v, v ∈ f g → v ∈ f h → g = h := by
  rw [List.nodup_flatMap] at hnod
  intro g hg h hh v hvg hvh
  by_contra hne
  have hdisj : Function.onFun List.Disjoint f g h :=
    List.Pairwise.forall (fun a b hab => List.Disjoint.symm hab) hnod.2 hg hh hne
  exact hdisj hvg hvh

/-- When device ids are globally duplicate-free across the processed
hubs, a stored `devices` row with a given device id is exactly the row
written for that device. -/
theorem devRow_unique (S : RemoteSnapshot) (F : List HubDoc)
    (hnod : (F.flatMap (fun g => (devsOf S g).map effDeviceId)).Nodup)
    (h : HubDoc) (hh : h ∈ F) (d : DeviceDoc) (hd : d ∈ devsOf S h)
    (row : DeviceRow) (hrow : row ∈ F.flatMap (deviceRowsOf S))
    (hid : row.device_id = effDeviceId d) :
    row = ⟨effDeviceId d, effHubCode h, effDeviceType d, d.isOn⟩ := by
  rcases List.mem_flatMap.mp hrow with ⟨g, hg, hrg⟩
  rcases List.mem_map.mp hrg with ⟨d', hd', hrow'⟩
  rw [← hrow'] at hid ⊢
  simp only at hid
  have hgh : g = h :=
    flatMap_nodup_unique F (fun g => (devsOf S g).map effDeviceId) hnod g hg h hh
      (effDeviceId d) (by rw [← hid]; exact List.mem_map.mpr ⟨d', hd', rfl⟩)
      (List.mem_map.mpr ⟨d, hd, rfl⟩)
  subst hgh
  have hinner : ((devsOf S g).map effDeviceId).Nodup :=
    (List.nodup_flatMap.mp hnod).1 g hg
  have hdd : d' = d := List.inj_on_of_nodup_map hinner hd' hd hid
  rw [hdd]

/-- When room ids are globally duplicate-free across the processed hubs,
a stored `rooms` row with a given room id is exactly the row written for
that room. -/
theorem roomRow_unique (S : RemoteSnapshot) (F : List HubDoc)
    (hnod : (F.flatMap (fun g => (roomsOf S g).map roomIdOf)).Nodup)
    (h : HubDoc) (hh : h ∈ F) (r : RoomDoc) (hr : r ∈ roomsOf S h)
    (row : RoomRow) (hrow : row ∈ F.flatMap (roomRowsOf S))
    (hid : row.room_id = roomIdOf r) :
    row = ⟨roomIdOf r, r.roomName.getD (roomIdOf r), effHubCode h,
      (extractDeviceIds r.devices).length⟩ := by
  rcases List.mem_flatMap.mp hrow with ⟨g, hg, hrg⟩
  rcases List.mem_map.mp hrg with ⟨r', hr', hrow'⟩
  rw [← hrow'] at hid ⊢
  simp only at hid
  have hgh : g = h :=
    flatMap_nodup_unique F (fun g => (roomsOf S g).map roomIdOf) hnod g hg h hh
      (roomIdOf r) (by rw [← hid]; exact List.mem_map.mpr ⟨r', hr', rfl⟩)
      (List.mem_map.mpr ⟨r, hr, rfl⟩)
  subst hgh
  have hinner : ((roomsOf S g).map roomIdOf).Nodup :=
    (List.nodup_flatMap.mp hnod).1 g hg
  have hrr : r' = r := List.inj_on_of_nodup_map hinner hr' hr hid
  rw [hrr]

/-- The pairs written for one room are among the pairs written for the
whole processed hub list. -/
theorem pair_in_flat (S : RemoteSnapshot) (F : List HubDoc)
    (h : HubDoc) (hh : h ∈ F) (r : RoomDoc) (hr : r ∈ roomsOf S h)
    (p : String × String)
    (hp : p ∈ ((extractDeviceIds r.devices).map (fun d => (roomIdOf r, d))).toFinset) :
    p ∈ (F.flatMap (roomPairsOf S)).toFinset := by
  rcases List.mem_map.mp (List.mem_toFinset.mp hp) with ⟨i, hi, hpi⟩
  refine List.mem_toFinset.mpr (List.mem_flatMap.mpr ⟨h, hh, ?_⟩)
  unfold roomPairsOf
  exact List.mem_flatMap.mpr ⟨r, hr, List.mem_map.mpr ⟨i, hi, hpi⟩⟩

/-- With globally duplicate-free room ids, every stored pair keyed by a
room's id comes from that room's own device list. -/
theorem pair_char (S : RemoteSnapshot) (F : List HubDoc)
    (hnod : (F.flatMap (fun g => (roomsOf S g).map roomIdOf)).Nodup)
    (h : HubDoc) (hh : h ∈ F) (r : RoomDoc) (hr : r ∈ roomsOf S h)
    (p : String × String) (hp : p ∈ (F.flatMap (roomPairsOf S)).toFinset)
    (hid : p.1 = roomIdOf r) :
    p ∈ ((extractDeviceIds r.devices).map (fun d => (roomIdOf r, d))).toFinset := by
  rcases List.mem_flatMap.mp (List.mem_toFinset.mp hp) with ⟨g, hg, hpg⟩
  unfold roomPairsOf at hpg
  rcases List.mem_flatMap.mp hpg with ⟨r', hr', hpr⟩
  rcases List.mem_map.mp hpr with ⟨i, hi, hpi⟩
  rw [← hpi] at hid ⊢
  simp only at hid
  have hgh : g = h :=
    flatMap_nodup_unique F (fun g => (roomsOf S g).map roomIdOf) hnod g hg h hh
      (roomIdOf r) (by rw [← hid]; exact List.mem_map.mpr ⟨r', hr', rfl⟩)
      (List.mem_map.mpr ⟨r, hr, rfl⟩)
  subst hgh
  have hinner : ((roomsOf S g).map roomIdOf).Nodup :=
    (List.nodup_flatMap.mp hnod).1 g hg
  have hrr : r' = r := List.inj_on_of_nodup_map hinner hr' hr hid
  subst hrr
  exact List.mem_toFinset.mpr (List.mem_map.mpr ⟨i, hi, rfl⟩)

/-- The store after `add_hub` for one fresh hub on top of a built
state. -/
def afterHub (S : RemoteSnapshot) (today : String) (P : List HubDoc) (h : HubDoc) : DBState :=
  { buildState S today P with
    users := dedupAppend ((P ++ [h]).map effUserId),
    hubs := P.map hubRowOf ++ [hubRowOf h] }

/-- The store after the device loop of one fresh hub. -/
def afterDevices (S : RemoteSnapshot) (today : String) (P : List HubDoc) (h : HubDoc) : DBState :=
  { afterHub S today P h with
    devices := P.flatMap (deviceRowsOf S) ++ deviceRowsOf S h }

/-- The store after the room loop of one fresh hub. -/
def afterRooms (S : RemoteSnapshot) (today : String) (P : List HubDoc) (h : HubDoc) : DBState :=
  { afterDevices S today P h with
    rooms := P.flatMap (roomRowsOf S) ++ roomRowsOf S h,
    room_devices := (P.flatMap (roomPairsOf S)).toFinset ∪ (roomPairsOf S h).toFinset }

/-- One loop iteration of the first pass: a non-dormant hub whose data
is entirely fresh extends the built state by exactly its own rows. -/
theorem processHub_fresh (S : RemoteSnapshot) (today : String) (P : List HubDoc) (h : HubDoc)
    (hne : effUserId h ≠ "") (hcs : h.hubCode.isSome)
    (hdok : (S.devicesByHub (effHubCode h)).isOk)
    (hrok : (S.roomsByHub (effHubCode h)).isOk)
    (hidf : effHubId h ∉ P.map effHubId)
    (hcdf : effHubCode h ∉ P.map effHubCode)
    (hdevf : ∀ d ∈ devsOf S h, effDeviceId d ∉
      P.flatMap (fun g => (devsOf S g).map effDeviceId))
    (hdevnod : ((devsOf S h).map effDeviceId).Nodup)
    (hroomf : ∀ r ∈ roomsOf S h, roomIdOf r ∉
      P.flatMap (fun g => (roomsOf S g).map roomIdOf))
    (hroomnod : ((roomsOf S h).map roomIdOf).Nodup)
    (hsub : ∀ r ∈ roomsOf S h, ∀ i ∈ extractDeviceIds r.devices,
      i ∈ (devsOf S h).map effDeviceId) :
    processHub S today (buildState S today P) h = .ok (buildState S today (P ++ [h])) := by
  have hU : (addUser (buildState S today P) (effUserId h)).2
      = { buildState S today P with users := dedupAppend ((P ++ [h]).map effUserId) } := by
    have hm : (P ++ [h]).map effUserId = P.map effUserId ++ [effUserId h] :=
      List.map_append effUserId P [h]
    rw [hm, dedupAppend_append_one]
    unfold addUser
    by_cases hmem : effUserId h ∈ dedupAppend (P.map effUserId)
    · rw [if_pos (show effUserId h ∈ (buildState S today P).users from hmem), if_pos hmem]
      rfl
    · rw [if_neg (show effUserId h ∉ (buildState S today P).users from hmem), if_neg hmem]
      rfl
  have hid : ∀ x ∈ (buildState S today P).hubs, x.hub_id ≠ effHubId h := by
    intro x hx hcontr
    rcases List.mem_map.mp (show x ∈ P.map hubRowOf from hx) with ⟨g, hg, hgx⟩
    rw [← hgx] at hcontr
    have hc2 : effHubId g = effHubId h := hcontr
    exact hidf (hc2 ▸ List.mem_map.mpr ⟨g, hg, rfl⟩)
  have hcd : ∀ x ∈ (buildState S today P).hubs, x.hub_code ≠ effHubCode h := by
    intro x hx hcontr
    rcases List.mem_map.mp (show x ∈ P.map hubRowOf from hx) with ⟨g, hg, hgx⟩
    rw [← hgx] at hcontr
    have hc2 : effHubCode g = effHubCode h := hcontr
    exact hcdf (hc2 ▸ List.mem_map.mpr ⟨g, hg, rfl⟩)
  have e1 : (addHub (buildState S today P) (effHubId h) (effHubCode h) (effUserId h)
      (effHomeType h)).2 = afterHub S today P h := by
    rw [addHub_fresh (buildState S today P) (effHubId h) (effHubCode h) (effUserId h)
      (effHomeType h) hne hid hcd, hU]
    rfl
  have hcodeA : effHubCode h ∈ hubCodes (afterHub S today P h) := by
    show effHubCode h ∈ (P.map hubRowOf ++ [hubRowOf h]).map (fun x => x.hub_code)
    simp [hubRowOf]
  have hdevIdsA : deviceIds (afterHub S today P h)
      = P.flatMap (fun g => (devsOf S g).map effDeviceId) :=
    deviceIds_buildState S today P
  have hfreshA : ∀ d ∈ devsOf S h, effDeviceId d ∉ deviceIds (afterHub S today P h) := by
    intro d hd
    rw [hdevIdsA]
    exact hdevf d hd
  have e2 : (devsOf S h).foldl (fun acc d =>
      (addDevice acc (effDeviceId d) (effHubCode h) (effDeviceType d) d.isOn).2)
      (afterHub S today P h) = afterDevices S today P h := by
    rw [foldAddDevice_fresh (effHubCode h) (devsOf S h) (afterHub S today P h)
      hcodeA hfreshA hdevnod]
    rfl
  have hcodeB : effHubCode h ∈ hubCodes (afterDevices S today P h) := hcodeA
  have hdevIdsB : deviceIds (afterDevices S today P h)
      = P.flatMap (fun g => (devsOf S g).map effDeviceId) ++ (devsOf S h).map effDeviceId := by
    show ((P.flatMap (deviceRowsOf S)) ++ deviceRowsOf S h).map (fun d => d.device_id) = _
    have h1 : (P.flatMap (deviceRowsOf S)).map (fun d => d.device_id)
        = P.flatMap (fun g => (devsOf S g).map effDeviceId) := deviceIds_buildState S today P
    have h2 : (deviceRowsOf S h).map (fun d => d.device_id)
        = (devsOf S h).map effDeviceId := by
      simp only [deviceRowsOf, List.map_map]
      rfl
    rw [List.map_append, h1, h2]
  have hsubB : ∀ r ∈ roomsOf S h, ∀ i ∈ extractDeviceIds r.devices,
      i ∈ deviceIds (afterDevices S today P h) := by
    intro r hr i hi
    rw [hdevIdsB]
    exact List.mem_append_right _ (hsub r hr i hi)
  have hroomIdsB : (afterDevices S today P h).rooms.map (fun x => x.room_id)
      = P.flatMap (fun g => (roomsOf S g).map roomIdOf) := roomIds_buildState S today P
  have hfreshB : ∀ r ∈ roomsOf S h,
      roomIdOf r ∉ (afterDevices S today P h).rooms.map (fun x => x.room_id) := by
    intro r hr
    rw [hroomIdsB]
    exact hroomf r hr
  have hpairB : ∀ r ∈ roomsOf S h, ∀ p ∈ (afterDevices S today P h).room_devices,
      p.1 ≠ roomIdOf r := by
    intro r hr p hp hcontr
    rcases List.mem_flatMap.mp (List.mem_toFinset.mp
      (show p ∈ (P.flatMap (roomPairsOf S)).toFinset from hp)) with ⟨g, hg, hpg⟩
    unfold roomPairsOf at hpg
    rcases List.mem_flatMap.mp hpg with ⟨r', hr', hpr⟩
    rcases List.mem_map.mp hpr with ⟨i, hi, hpi⟩
    have hp1 : p.1 = roomIdOf r' := by rw [← hpi]
    apply hroomf r hr
    rw [hp1] at hcontr
    exact List.mem_flatMap.mpr ⟨g, hg, List.mem_map.mpr ⟨r', hr', hcontr⟩⟩
  have e3 : (roomsOf S h).foldl (fun acc r =>
      (addRoom acc (r.roomId.getD "unknown") (r.roomName.getD (r.roomId.getD "unknown"))
        (effHubCode h) (extractDeviceIds r.devices)).2)
      (afterDevices S today P h) = afterRooms S today P h := by
    rw [foldAddRoom_fresh (effHubCode h) (roomsOf S h) (afterDevices S today P h)
      hcodeB hsubB hfreshB hroomnod hpairB]
    rfl
  have hcodeC : effHubCode h ∈ hubCodes (afterRooms S today P h) := hcodeA
  have hfreshSum : ∀ p ∈ P.map (fun g => (effHubCode g,
      (⟨effUserId g, hubDailyTotal (devsOf S g), 0, 0, 0, 0⟩ : HubSummaryRow))),
      p.1 ≠ effHubCode h := by
    intro p hp hcontr
    rcases List.mem_map.mp hp with ⟨g, hg, hpg⟩
    apply hcdf
    rw [← hcontr, ← hpg]
    exact List.mem_map.mpr ⟨g, hg, rfl⟩
  have e4 : calcAndStoreDailyEnergy h (devsOf S h) (afterRooms S today P h) today
      = buildState S today (P ++ [h]) := by
    unfold calcAndStoreDailyEnergy
    dsimp only
    rw [calcHubCode_eq_eff h hcs, calcUserId_eq_eff h hne]
    rw [foldStoreDaily today (effUserId h) (effHubCode h) (devsOf S h)
      (afterRooms S today P h) hcodeC]
    rw [(storeHubDailyTotal_effect _ _ _ _ _ _).2]
    rw [addUser_present _ _ (show effUserId h ∈ dedupAppend ((P ++ [h]).map effUserId) from
      mem_dedupAppend _ _ (List.mem_map.mpr ⟨h, by simp, rfl⟩))]
    dsimp only [afterRooms, afterDevices, afterHub, buildState]
    rw [upsertBy_fresh _ _ _ hfreshSum]
    refine DBState.ext ?_ ?_ ?_ ?_ ?_ ?_ ?_ ?_ ?_ ?_ <;>
      simp [afterRooms, afterDevices, afterHub, buildState, energyRowsOf, deviceRowsOf,
        roomRowsOf, roomPairsOf, hubRowOf, List.map_append, List.flatMap_append,
        List.toFinset_append, List.append_assoc]
  unfold processHub
  rw [if_neg hne]
  rw [devsOf_ok S h hdok, roomsOf_ok S h hrok]
  dsimp only
  rw [e1, e2, e3, e4]

/-- Reduction of one non-dormant loop iteration whose two fetches
succeed, exposing the four store stages. -/
theorem processHub_eq (S : RemoteSnapshot) (today : String) (db : DBState) (h : HubDoc)
    (hne : effUserId h ≠ "")
    (hdok : (S.devicesByHub (effHubCode h)).isOk)
    (hrok : (S.roomsByHub (effHubCode h)).isOk) :
    processHub S today db h = .ok (calcAndStoreDailyEnergy h (devsOf S h)
      ((roomsOf S h).foldl (fun acc r =>
        (addRoom acc (r.roomId.getD "unknown") (r.roomName.getD (r.roomId.getD "unknown"))
          (effHubCode h) (extractDeviceIds r.devices)).2)
        ((devsOf S h).foldl (fun acc d =>
          (addDevice acc (effDeviceId d) (effHubCode h) (effDeviceType d) d.isOn).2)
          (addHub db (effHubId h) (effHubCode h) (effUserId h) (effHomeType h)).2)) today) := by
  unfold processHub
  rw [if_neg hne, devsOf_ok S h hdok, roomsOf_ok S h hrok]

/-- One loop iteration of the second pass: over the state a completed
pass built (with any `energy_daily` content), a non-dormant hub rewrites
all of its rows in place and appends its `energy_daily` rows once
more. -/
theorem processHub_idem (S : RemoteSnapshot) (today : String) (F : List HubDoc)
    (h : HubDoc) (hh : h ∈ F)
    (hne : effUserId h ≠ "") (hcs : h.hubCode.isSome)
    (hdok : (S.devicesByHub (effHubCode h)).isOk)
    (hrok : (S.roomsByHub (effHubCode h)).isOk)
    (hidnod : (F.map effHubId).Nodup)
    (hcodnod : (F.map effHubCode).Nodup)
    (hdevnod : (F.flatMap (fun g => (devsOf S g).map effDeviceId)).Nodup)
    (hroomnod : (F.flatMap (fun g => (roomsOf S g).map roomIdOf)).Nodup)
    (hsub : ∀ r ∈ roomsOf S h, ∀ i ∈ extractDeviceIds r.devices,
      i ∈ (devsOf S h).map effDeviceId)
    (E : List EnergyDailyRow) :
    processHub S today { buildState S today F with energy_daily := E } h
      = .ok { buildState S today F with
              energy_daily := E ++ energyRowsOf S today h } := by
  have hcodesDB : hubCodes { buildState S today F with energy_daily := E }
      = F.map effHubCode := hubCodes_buildState S today F
  have hcode : effHubCode h ∈ hubCodes { buildState S today F with energy_daily := E } := by
    rw [hcodesDB]
    exact List.mem_map.mpr ⟨h, hh, rfl⟩
  have humem : effUserId h ∈ ({ buildState S today F with energy_daily := E } : DBState).users :=
    mem_dedupAppend _ _ (List.mem_map.mpr ⟨h, hh, rfl⟩)
  have eA : (addHub { buildState S today F with energy_daily := E }
      (effHubId h) (effHubCode h) (effUserId h) (effHomeType h)).2
      = { buildState S today F with energy_daily := E } := by
    refine addHub_idem _ _ _ _ _ hne humem ?_ ?_ ?_
    · exact (List.mem_map.mpr ⟨h, hh, rfl⟩ :
        hubRowOf h ∈ F.map hubRowOf)
    · intro x hx he
      rcases List.mem_map.mp (show x ∈ F.map hubRowOf from hx) with ⟨g, hg, hgx⟩
      rw [← hgx] at he ⊢
      have hgid : effHubId g = effHubId h := he
      rw [List.inj_on_of_nodup_map hidnod hg hh hgid]
      rfl
    · intro x hx he
      rcases List.mem_map.mp (show x ∈ F.map hubRowOf from hx) with ⟨g, hg, hgx⟩
      rw [← hgx] at he ⊢
      have hgcd : effHubCode g = effHubCode h := he
      rw [List.inj_on_of_nodup_map hcodnod hg hh hgcd]
      rfl
  have eD : (devsOf S h).foldl (fun acc d =>
      (addDevice acc (effDeviceId d) (effHubCode h) (effDeviceType d) d.isOn).2)
      { buildState S today F with energy_daily := E }
      = { buildState S today F with energy_daily := E } := by
    refine foldAddDevice_idem (effHubCode h) (devsOf S h) _ hcode ?_ ?_
    · intro d hd
      exact (List.mem_flatMap.mpr ⟨h, hh, List.mem_map.mpr ⟨d, hd, rfl⟩⟩ :
        _ ∈ F.flatMap (deviceRowsOf S))
    · intro d hd row hrow hid
      exact devRow_unique S F hdevnod h hh d hd row
        (show row ∈ F.flatMap (deviceRowsOf S) from hrow) hid
  have eR : (roomsOf S h).foldl (fun acc r =>
      (addRoom acc (r.roomId.getD "unknown") (r.roomName.getD (r.roomId.getD "unknown"))
        (effHubCode h) (extractDeviceIds r.devices)).2)
      { buildState S today F with energy_daily := E }
      = { buildState S today F with energy_daily := E } := by
    refine foldAddRoom_idem (effHubCode h) (roomsOf S h) _ hcode ?_ ?_ ?_ ?_ ?_
    · intro r hr i hi
      have hdix : deviceIds { buildState S today F with energy_daily := E }
          = F.flatMap (fun g => (devsOf S g).map effDeviceId) :=
        deviceIds_buildState S today F
      rw [hdix]
      exact List.mem_flatMap.mpr ⟨h, hh, hsub r hr i hi⟩
    · intro r hr
      exact (List.mem_flatMap.mpr ⟨h, hh, List.mem_map.mpr ⟨r, hr, rfl⟩⟩ :
        _ ∈ F.flatMap (roomRowsOf S))
    · intro r hr x hx hid
      exact roomRow_unique S F hroomnod h hh r hr x
        (show x ∈ F.flatMap (roomRowsOf S) from hx) hid
    · intro r hr p hp
      exact pair_in_flat S F h hh r hr p hp
    · intro r hr p hp hid
      exact pair_char S F hroomnod h hh r hr p
        (show p ∈ (F.flatMap (roomPairsOf S)).toFinset from hp) hid
  have hsmem : (effHubCode h,
      (⟨effUserId h, hubDailyTotal (devsOf S h), 0, 0, 0, 0⟩ : HubSummaryRow))
      ∈ F.map (fun g => (effHubCode g,
        (⟨effUserId g, hubDailyTotal (devsOf S g), 0, 0, 0, 0⟩ : HubSummaryRow))) :=
    List.mem_map.mpr ⟨h, hh, rfl⟩
  have hsuniq : ∀ p ∈ F.map (fun g => (effHubCode g,
      (⟨effUserId g, hubDailyTotal (devsOf S g), 0, 0, 0, 0⟩ : HubSummaryRow))),
      p.1 = effHubCode h → p = (effHubCode h,
        (⟨effUserId h, hubDailyTotal (devsOf S h), 0, 0, 0, 0⟩ : HubSummaryRow)) := by
    intro p hp he
    rcases List.mem_map.mp hp with ⟨g, hg, hpg⟩
    rw [← hpg] at he ⊢
    have hgcd : effHubCode g = effHubCode h := he
    rw [List.inj_on_of_nodup_map hcodnod hg hh hgcd]
  have eC : calcAndStoreDailyEnergy h (devsOf S h)
      { buildState S today F with energy_daily := E } today
      = { buildState S today F with energy_daily := E ++ energyRowsOf S today h } := by
    unfold calcAndStoreDailyEnergy
    dsimp only
    rw [calcHubCode_eq_eff h hcs, calcUserId_eq_eff h hne]
    rw [foldStoreDaily today (effUserId h) (effHubCode h) (devsOf S h) _ hcode]
    rw [(storeHubDailyTotal_effect _ _ _ _ _ _).2]
    rw [addUser_present _ _ (show effUserId h ∈ dedupAppend (F.map effUserId) from
      mem_dedupAppend _ _ (List.mem_map.mpr ⟨h, hh, rfl⟩))]
    dsimp only [buildState]
    rw [upsertBy_same _ _ _ hsmem hsuniq]
    refine DBState.ext ?_ ?_ ?_ ?_ ?_ ?_ ?_ ?_ ?_ ?_ <;>
      simp [buildState, energyRowsOf, List.append_assoc]
  rw [processHub_eq S today _ h hne hdok hrok, eA, eD, eR, eC]

/-- The first pass over any remaining hub list `hl`, starting from the
state its processed prefix `P` built: under the well-formedness
conditions it completes and builds exactly the state of the full
processed list. -/
theorem syncRun1 (S : RemoteSnapshot) (today : String) :
    ∀ (hl P : List HubDoc),
      ((P ++ processedOf hl).map effHubId).Nodup →
      ((P ++ processedOf hl).map effHubCode).Nodup →
      (∀ g ∈ processedOf hl, g.hubCode.isSome = true ∧
        (S.devicesByHub (effHubCode g)).isOk = true ∧
        (S.roomsByHub (effHubCode g)).isOk = true) →
      ((P ++ processedOf hl).flatMap (fun g => (devsOf S g).map effDeviceId)).Nodup →
      ((P ++ processedOf hl).flatMap (fun g => (roomsOf S g).map roomIdOf)).Nodup →
      (∀ g ∈ processedOf hl, ∀ r ∈ roomsOf S g, ∀ i ∈ extractDeviceIds r.devices,
        i ∈ (devsOf S g).map effDeviceId) →
      syncHubs S today hl (buildState S today P)
        = .ok (buildState S today (P ++ processedOf hl))
  | [], P, _, _, _, _, _, _ => by
    simp [syncHubs, processedOf]
  | h :: t, P, h1, h2, h3, h4, h5, h6 => by
    by_cases hd : effUserId h = ""
    · have hpt : processedOf (h :: t) = processedOf t := by
        unfold processedOf
        rw [List.filter_cons]
        simp [hd]
      rw [hpt] at h1 h2 h3 h4 h5 h6 ⊢
      have hstep : processHub S today (buildState S today P) h
          = .ok (buildState S today P) := by
        unfold processHub
        rw [if_pos hd]
      simp only [syncHubs]
      rw [hstep]
      exact syncRun1 S today t P h1 h2 h3 h4 h5 h6
    · have hpt : processedOf (h :: t) = h :: processedOf t := by
        unfold processedOf
        rw [List.filter_cons]
        simp [hd]
      rw [hpt] at h1 h2 h3 h4 h5 h6
      have hhm : h ∈ h :: processedOf t := by simp
      have hok := h3 h hhm
      have h1' : (P.map effHubId).Nodup ∧ ((h :: processedOf t).map effHubId).Nodup ∧
          (P.map effHubId).Disjoint ((h :: processedOf t).map effHubId) := by
        rw [← List.nodup_append, ← List.map_append]
        exact h1
      have h2' : (P.map effHubCode).Nodup ∧ ((h :: processedOf t).map effHubCode).Nodup ∧
          (P.map effHubCode).Disjoint ((h :: processedOf t).map effHubCode) := by
        rw [← List.nodup_append, ← List.map_append]
        exact h2
      have h4' : (P.flatMap (fun g => (devsOf S g).map effDeviceId)).Nodup ∧
          ((h :: processedOf t).flatMap (fun g => (devsOf S g).map effDeviceId)).Nodup ∧
          (P.flatMap (fun g => (devsOf S g).map effDeviceId)).Disjoint
            ((h :: processedOf t).flatMap (fun g => (devsOf S g).map effDeviceId)) := by
        rw [← List.nodup_append, ← List.flatMap_append]
        exact h4
      have h5' : (P.flatMap (fun g => (roomsOf S g).map roomIdOf)).Nodup ∧
          ((h :: processedOf t).flatMap (fun g => (roomsOf S g).map roomIdOf)).Nodup ∧
          (P.flatMap (fun g => (roomsOf S g).map roomIdOf)).Disjoint
            ((h :: processedOf t).flatMap (fun g => (roomsOf S g).map roomIdOf)) := by
        rw [← List.nodup_append, ← List.flatMap_append]
        exact h5
      have hidf : effHubId h ∉ P.map effHubId := by
        intro hmem
        exact h1'.2.2 hmem (by simp)
      have hcdf : effHubCode h ∉ P.map effHubCode := by
        intro hmem
        exact h2'.2.2 hmem (by simp)
      have hdevf : ∀ d ∈ devsOf S h, effDeviceId d ∉
          P.flatMap (fun g => (devsOf S g).map effDeviceId) := by
        intro d hdm hmem
        refine h4'.2.2 hmem ?_
        rw [List.flatMap_cons]
        exact List.mem_append_left _ (List.mem_map.mpr ⟨d, hdm, rfl⟩)
      have hdevnod : ((devsOf S h).map effDeviceId).Nodup := by
        have := h4'.2.1
        rw [List.flatMap_cons, List.nodup_append] at this
        exact this.1
      have hroomf : ∀ r ∈ roomsOf S h, roomIdOf r ∉
          P.flatMap (fun g => (roomsOf S g).map roomIdOf) := by
        intro r hrm hmem
        refine h5'.2.2 hmem ?_
        rw [List.flatMap_cons]
        exact List.mem_append_left _ (List.mem_map.mpr ⟨r, hrm, rfl⟩)
      have hroomnod : ((roomsOf S h).map roomIdOf).Nodup := by
        have := h5'.2.1
        rw [List.flatMap_cons, List.nodup_append] at this
        exact this.1
      have hstep := processHub_fresh S today P h hd hok.1 hok.2.1 hok.2.2
        hidf hcdf hdevf hdevnod hroomf hroomnod (h6 h hhm)
      simp only [syncHubs]
      rw [hstep]
      dsimp only
      have hassoc : (P ++ [h]) ++ processedOf t = P ++ (h :: processedOf t) := by simp
      have hrec := syncRun1 S today t (P ++ [h])
        (by rw [hassoc]; exact h1) (by rw [hassoc]; exact h2)
        (fun g hg => h3 g (List.mem_cons_of_mem _ hg))
        (by rw [hassoc]; exact h4) (by rw [hassoc]; exact h5)
        (fun g hg => h6 g (List.mem_cons_of_mem _ hg))
      rw [hrec, hassoc, hpt]

/-- The second pass over any remaining hub list, starting from the state
the completed first pass built (with arbitrary accumulated `energy_daily`
rows): every table is rewritten in place except `energy_daily`, which
grows by the processed hubs' rows once more. -/
theorem syncRun2 (S : RemoteSnapshot) (today : String) (F : List HubDoc)
    (hidnod : (F.map effHubId).Nodup)
    (hcodnod : (F.map effHubCode).Nodup)
    (hdevnod : (F.flatMap (fun g => (devsOf S g).map effDeviceId)).Nodup)
    (hroomnod : (F.flatMap (fun g => (roomsOf S g).map roomIdOf)).Nodup)
    (hokF : ∀ g ∈ F, g.hubCode.isSome = true ∧
      (S.devicesByHub (effHubCode g)).isOk = true ∧
      (S.roomsByHub (effHubCode g)).isOk = true)
    (hsubF : ∀ g ∈ F, ∀ r ∈ roomsOf S g, ∀ i ∈ extractDeviceIds r.devices,
      i ∈ (devsOf S g).map effDeviceId) :
    ∀ (hl : List HubDoc) (E : List EnergyDailyRow),
      (∀ g ∈ processedOf hl, g ∈ F) →
      syncHubs S today hl { buildState S today F with energy_daily := E }
        = .ok { buildState S today F with
                energy_daily := E ++ (processedOf hl).flatMap (energyRowsOf S today) }
  | [], E, _ => by
    simp [syncHubs, processedOf]
  | h :: t, E, hmemF => by
    by_cases hd : effUserId h = ""
    · have hpt : processedOf (h :: t) = processedOf t := by
        unfold processedOf
        rw [List.filter_cons]
        simp [hd]
      rw [hpt] at hmemF ⊢
      have hstep : processHub S today { buildState S today F with energy_daily := E } h
          = .ok { buildState S today F with energy_daily := E } := by
        unfold processHub
        rw [if_pos hd]
      simp only [syncHubs]
      rw [hstep]
      dsimp only
      exact syncRun2 S today F hidnod hcodnod hdevnod hroomnod hokF hsubF t E hmemF
    · have hpt : processedOf (h :: t) = h :: processedOf t := by
        unfold processedOf
        rw [List.filter_cons]
        simp [hd]
      rw [hpt] at hmemF
      have hhF : h ∈ F := hmemF h (by simp)
      have hok := hokF h hhF
      have hstep := processHub_idem S today F h hhF hd hok.1 hok.2.1 hok.2.2
        hidnod hcodnod hdevnod hroomnod (hsubF h hhF) E
      simp only [syncHubs]
      rw [hstep]
      dsimp only
      have hrec := syncRun2 S today F hidnod hcodnod hdevnod hroomnod hokF hsubF t
        (E ++ energyRowsOf S today h)
        (fun g hg => hmemF g (List.mem_cons_of_mem _ hg))
      rw [hrec, hpt, List.flatMap_cons, ← List.append_assoc]

/-- C2 amended: over a frozen well-formed snapshot and a fixed date, two
immediately consecutive passes of `fetch_and_store_all_data` starting
from an empty store both report success and leave every table unchanged
except the daily measurement table: `users`, `hubs`, `devices`, `rooms`,
`room_devices` and `hub_summary` are identical after the second pass,
while `energy_daily` doubles — the second pass appends every row again,
because the table's only uniqueness is its surrogate autoincrement key,
so its `INSERT OR REPLACE` statements never replace. -/
theorem c2_amended (S : RemoteSnapshot) (today : String)
    (hwf : wellFormedSync S = true) :
    (fetchAndStoreAllData S emptyDB today).1 = true ∧
    (fetchAndStoreAllData S (fetchAndStoreAllData S emptyDB today).2 today).1 = true ∧
    (fetchAndStoreAllData S (fetchAndStoreAllData S emptyDB today).2 today).2.users
      = (fetchAndStoreAllData S emptyDB today).2.users ∧
    (fetchAndStoreAllData S (fetchAndStoreAllData S emptyDB today).2 today).2.hubs
      = (fetchAndStoreAllData S emptyDB today).2.hubs ∧
    (fetchAndStoreAllData S (fetchAndStoreAllData S emptyDB today).2 today).2.devices
      = (fetchAndStoreAllData S emptyDB today).2.devices ∧
    (fetchAndStoreAllData S (fetchAndStoreAllData S emptyDB today).2 today).2.rooms
      = (fetchAndStoreAllData S emptyDB today).2.rooms ∧
    (fetchAndStoreAllData S (fetchAndStoreAllData S emptyDB today).2 today).2.room_devices
      = (fetchAndStoreAllData S emptyDB today).2.room_devices ∧
    (fetchAndStoreAllData S (fetchAndStoreAllData S emptyDB today).2 today).2.hub_summary
      = (fetchAndStoreAllData S emptyDB today).2.hub_summary ∧
    (fetchAndStoreAllData S (fetchAndStoreAllData S emptyDB today).2 today).2.energy_daily
      = (fetchAndStoreAllData S emptyDB today).2.energy_daily
        ++ (fetchAndStoreAllData S emptyDB today).2.energy_daily := by
  unfold wellFormedSync at hwf
  cases hs : S.hubsResult with
  | error e =>
    rw [hs] at hwf
    simp at hwf
  | ok hl =>
    rw [hs] at hwf
    dsimp only at hwf
    simp only [Bool.and_eq_true, decide_eq_true_eq, List.all_eq_true] at hwf
    obtain ⟨⟨⟨⟨⟨hidnod, hcodnod⟩, hall⟩, hdevnod⟩, hroomnod⟩, hsuball⟩ := hwf
    have hokF : ∀ g ∈ processedOf hl, g.hubCode.isSome = true ∧
        (S.devicesByHub (effHubCode g)).isOk = true ∧
        (S.roomsByHub (effHubCode g)).isOk = true := by
      intro g hg
      have hg2 := hall g hg
      exact ⟨hg2.1.1, hg2.1.2, hg2.2⟩
    have hsubF : ∀ g ∈ processedOf hl, ∀ r ∈ roomsOf S g,
        ∀ i ∈ extractDeviceIds r.devices, i ∈ (devsOf S g).map effDeviceId := by
      intro g hg r hr i hi
      exact hsuball g hg r hr i hi
    have hrun1 := syncRun1 S today hl [] hidnod hcodnod hokF hdevnod hroomnod hsubF
    have hfas1 : fetchAndStoreAllData S emptyDB today
        = (true, buildState S today (processedOf hl)) := by
      unfold fetchAndStoreAllData
      rw [hs]
      dsimp only
      rw [(show syncHubs S today hl emptyDB
        = .ok (buildState S today (processedOf hl)) from hrun1)]
    have hBSeta : buildState S today (processedOf hl)
        = { buildState S today (processedOf hl) with
            energy_daily := (processedOf hl).flatMap (energyRowsOf S today) } := rfl
    have hrun2 := syncRun2 S today (processedOf hl) hidnod hcodnod hdevnod hroomnod
      hokF hsubF hl ((processedOf hl).flatMap (energyRowsOf S today)) (fun g hg => hg)
    rw [← hBSeta] at hrun2
    have hfas2 : fetchAndStoreAllData S (buildState S today (processedOf hl)) today
        = (true, { buildState S today (processedOf hl) with
            energy_daily := (processedOf hl).flatMap (energyRowsOf S today)
              ++ (processedOf hl).flatMap (energyRowsOf S today) }) := by
      unfold fetchAndStoreAllData
      rw [hs]
      dsimp only
      rw [hrun2]
    rw [hfas1]
    dsimp only
    rw [hfas2]
    exact ⟨rfl, rfl, rfl, rfl, rfl, rfl, rfl, rfl, rfl⟩

/-- Witness: the one-hub snapshot is well-formed, and the amended C2
statement holds on it. -/
theorem c2_amended_witness :
    wellFormedSync c2Snapshot = true ∧
    (fetchAndStoreAllData c2Snapshot emptyDB "2026-01-01").1 = true :=
  ⟨by decide, (c2_amended c2Snapshot "2026-01-01" (by decide)).1⟩
